import Mathlib

/-!
A shallow embedding of `src/main.py` (an 8-queens genetic search) together
with proofs about its operations.

Board layouts are lists of natural numbers: `positions[col]` is the row of
the queen in column `col`.  Python `int` values appearing here are always
non-negative (board coordinates and conflict counts), so they are modelled
as `Nat`; the absolute difference `max - min` of the source is kept in that
form.  Python `list` slicing and `del` on slices are modelled with explicit
index normalisation (`pySliceIdx`) mirroring CPython's clamping of
out-of-range and negative slice indices.
-/

/-- `BOARD_SIZE = 8` from the source. -/
def BOARD_SIZE : Nat := 8

/-- `Individual.has_conflict` from the source: two queens at coordinates
`p1` and `p2` conflict when they share a column, a row, or a diagonal
(`max-min` of the x coordinates equals `max-min` of the y coordinates). -/
def has_conflict (p1 p2 : Nat × Nat) : Bool :=
  p1.1 == p2.1 || p1.2 == p2.2 ||
    (max p1.1 p2.1 - min p1.1 p2.1 == max p1.2 p2.2 - min p1.2 p2.2)

/-- `Individual.fitness` from the source: for each column `x1` (with row
`y1 = positions[x1]`) count the conflicts with every later column
`x2 ∈ range(x1+1, len(positions))`. -/
def fitness (positions : List Nat) : Nat :=
  (positions.enum.map (fun p =>
    ((List.range' (p.1 + 1) (positions.length - (p.1 + 1))).countP
      (fun x2 => has_conflict p (x2, positions.getD x2 0))))).sum

/-- `Individual` from the source: a board layout and its cached conflict
count. -/
structure Individual where
  positions : List Nat
  n_conflicts : Nat
deriving DecidableEq, Repr

/-- The class-attribute defaults `positions = []`, `n_conflicts = 0`. -/
instance : Inhabited Individual := ⟨⟨[], 0⟩⟩

/-- `Individual.__init__` from the source.  The Python parameter
`positions: list[int] | None = None` is an `Option (List Nat)`; `sample`
stands for the value `random.sample(range(BOARD_SIZE), BOARD_SIZE)` drawn
from the random source.  `positions if positions else …` uses Python
truthiness, under which both `None` and the empty list select the random
sample.  `n_conflicts` is always computed from the chosen positions. -/
def mkIndividual (positions : Option (List Nat)) (sample : List Nat) : Individual :=
  let ps := match positions with
    | some p => if p = [] then sample else p
    | none => sample
  { positions := ps, n_conflicts := fitness ps }

/-- `create_random_pop` from the source: `count` freshly created
individuals; `samples k` is the permutation drawn by the `k`-th
`Individual()` construction. -/
def create_random_pop (count : Nat) (samples : Nat → List Nat) : List Individual :=
  (List.range count).map (fun k => mkIndividual none (samples k))

/-- `evaluate` from the source: `population.sort(key=…n_conflicts)`;
Python's `list.sort` is a stable ascending sort, modelled by
`List.mergeSort`. -/
def evaluate (population : List Individual) : List Individual :=
  population.mergeSort (fun a b => a.n_conflicts ≤ b.n_conflicts)

/-- CPython's normalisation of one slice index `i` against a list of
length `len`: negative indices count from the end, and the result is
clamped to `[0, len]`. -/
def pySliceIdx (len : Nat) (i : Int) : Nat :=
  if i < 0 then (i + len).toNat else min i.toNat len

/-- `selection` from the source:
`del population[hcount : len(population) - lcount]`.  Deleting the slice
`[start, stop)` keeps the prefix before `start` and the suffix from
`stop` on; an empty (or reversed) slice deletes nothing. -/
def selection (population : List Individual) (hcount lcount : Nat) : List Individual :=
  let start := pySliceIdx population.length (hcount : Int)
  let stop := pySliceIdx population.length ((population.length : Int) - (lcount : Int))
  population.take start ++ population.drop (max start stop)

/-- `crossover` from the source, applied to two distinct `Individual`
objects; returns the pair of updated individuals.
`ind1.positions[:half] = ind2_slice` makes `ind1`'s positions
`ind2_slice ++ ind1.positions[half:]`, and
`ind2.positions[-half:] = ind1_slice` makes `ind2`'s positions
`ind2.positions[:len-half] ++ ind1_slice` (CPython clamps `-half` to `0`
when the list is shorter than `half`, which Nat subtraction mirrors).
Both conflict caches are recomputed at the end. -/
def crossover (ind1 ind2 : Individual) : Individual × Individual :=
  let half := BOARD_SIZE / 2
  let ind1_slice := ind1.positions.take half
  let ind2_slice := ind2.positions.drop (ind2.positions.length - half)
  let p1 := ind2_slice ++ ind1.positions.drop half
  let p2 := ind2.positions.take (ind2.positions.length - half) ++ ind1_slice
  (⟨p1, fitness p1⟩, ⟨p2, fitness p2⟩)

/-- The drivers' call `crossover(population[i], population[j])`.  The two
arguments are object references into the population, so when `i = j` the
four in-place updates of `crossover` all hit the same object; the model
re-reads the current object before each update, exactly in source
order. -/
def crossoverAt (pop : List Individual) (i j : Nat) : List Individual :=
  let half := BOARD_SIZE / 2
  let a := pop.getD i default
  let b := pop.getD j default
  let ind1_slice := a.positions.take half
  let ind2_slice := b.positions.drop (b.positions.length - half)
  let pop1 := pop.set i { a with positions := ind2_slice ++ a.positions.drop half }
  let b1 := pop1.getD j default
  let pop2 := pop1.set j
    { b1 with positions := b1.positions.take (b1.positions.length - half) ++ ind1_slice }
  let a2 := pop2.getD i default
  let pop3 := pop2.set i { a2 with n_conflicts := fitness a2.positions }
  let b3 := pop3.getD j default
  pop3.set j { b3 with n_conflicts := fitness b3.positions }

/-- `population[i]` and `population[j]` raise `IndexError` when out of
range, so the drivers' crossover call is fallible. -/
def crossoverIdx (pop : List Individual) (i j : Nat) : Option (List Individual) :=
  if i < pop.length ∧ j < pop.length then some (crossoverAt pop i j) else none

/-- `mutate` from the source: overwrite `positions[col]` with `val`
(the two `random.randint(0, 7)` draws) and recompute the conflict
cache. -/
def mutate (ind : Individual) (col val : Nat) : Individual :=
  let ps := ind.positions.set col val
  { positions := ps, n_conflicts := fitness ps }

/-- The drivers' call `mutate(population[idx])`: fallible because both
`population[idx]` and `positions[col] = val` raise `IndexError` out of
range. -/
def mutateAt (pop : List Individual) (idx col val : Nat) : Option (List Individual) :=
  if idx < pop.length ∧ col < (pop.getD idx default).positions.length then
    some (pop.set idx (mutate (pop.getD idx default) col val))
  else none

/-- `repopulate` from the source: append fresh random individuals until
the population reaches `size`; `samples k` is the permutation drawn by
the `k`-th fresh `Individual()`. -/
def repopulate (population : List Individual) (size : Nat) (samples : Nat → List Nat) : List Individual :=
  if population.length < size then
    population ++ (List.range (size - population.length)).map (fun k => mkIndividual none (samples k))
  else population

/-- The random draws one generation of either driver consumes:
`r1`, `r2` index the crossover pair, `r3` indexes the mutated member,
`mcol`/`mval` are the two draws inside `mutate`, and `samples` are the
permutations drawn by `repopulate`'s fresh individuals. -/
structure GenDraws where
  r1 : Nat
  r2 : Nat
  r3 : Nat
  mcol : Nat
  mval : Nat
  samples : Nat → List Nat

/-- The generation body shared by both drivers after their respective
termination checks: select, crossover at two random indices, mutate at a
random index, repopulate. -/
def generationTail (pop : List Individual) (d : GenDraws) (size hcount lcount : Nat) :
    Option (List Individual) :=
  let pop2 := selection pop hcount lcount
  (crossoverIdx pop2 d.r1 d.r2).bind fun pop3 =>
    (mutateAt pop3 d.r3 d.mcol d.mval).map fun pop4 =>
      repopulate pop4 size d.samples

/-- One loop iteration of `simple_algorithm` when the termination check
`population[0].n_conflicts == 0` failed: evaluate, then the shared
tail. -/
def simpleStep (pop : List Individual) (d : GenDraws) (size hcount lcount : Nat) :
    Option (List Individual) :=
  generationTail (evaluate pop) d size hcount lcount

/-- State of `all_solutions_algorithm`: the set of stringified
zero-conflict layouts found so far (`str` is injective on integer lists,
so the set is modelled as a `Finset` of position lists) and the current
population. -/
structure SolState where
  solutions : Finset (List Nat)
  population : List Individual

/-- The `while len(solutions_found) != 92` guard of
`all_solutions_algorithm`. -/
def loopGuard (solutions : Finset (List Nat)) : Bool := solutions.card != 92

/-- One loop iteration of `all_solutions_algorithm`: evaluate, add every
zero-conflict member's positions to the solution set, then the shared
generation tail. -/
def allStep (st : SolState) (d : GenDraws) (size hcount lcount : Nat) : Option SolState :=
  let pop1 := evaluate st.population
  let sols1 := st.solutions ∪ ((pop1.filter (fun ind => ind.n_conflicts == 0)).map
    (fun ind => ind.positions)).toFinset
  (generationTail pop1 d size hcount lcount).map fun pop5 => ⟨sols1, pop5⟩

/-- `n` loop iterations of `all_solutions_algorithm` from state `st`,
drawing generation `k`'s randomness from `draws k`; the loop body only
runs while the `while` guard holds, and `none` records an
`IndexError`. -/
def allRun (draws : Nat → GenDraws) (size hcount lcount : Nat) (st : SolState) :
    Nat → Option SolState
  | 0 => some st
  | n + 1 =>
    match allRun draws size hcount lcount st n with
    | none => none
    | some s => if loopGuard s.solutions then allStep s (draws n) size hcount lcount else some s

/-- The in-place self-crossover `crossover(x, x)` produced when both
random indices coincide: the sequential slice assignments on the single
shared object end with these positions. -/
def crossoverSelf (x : Individual) : Individual :=
  let half := BOARD_SIZE / 2
  let p1 := x.positions.drop (x.positions.length - half) ++ x.positions.drop half
  let p2 := p1.take (p1.length - half) ++ x.positions.take half
  ⟨p2, fitness p2⟩

def placeOk (ps : List Nat) (r : Nat) : Bool :=
  ps.enum.all (fun p => !has_conflict p (ps.length, r))

def extendBoards (ps : List Nat) : List (List Nat) :=
  ((List.range BOARD_SIZE).filter (fun r => placeOk ps r)).map (fun r => ps ++ [r])

def searchLevel : Nat → List (List Nat)
  | 0 => [[]]
  | k + 1 => (searchLevel k).flatMap extendBoards

set_option maxRecDepth 16000 in
set_option maxHeartbeats 1000000 in
/-- The boards of `searchLevel 1`, listed literally so each level of
the search can be checked by a small independent computation. -/
def queensLevel1 : List (List Nat) :=
  [[0],
    [1],
    [2],
    [3],
    [4],
    [5],
    [6],
    [7]]

set_option maxRecDepth 16000 in
set_option maxHeartbeats 1000000 in
/-- The boards of `searchLevel 2`, listed literally so each level of
the search can be checked by a small independent computation. -/
def queensLevel2 : List (List Nat) :=
  [[0, 2],
    [0, 3],
    [0, 4],
    [0, 5],
    [0, 6],
    [0, 7],
    [1, 3],
    [1, 4],
    [1, 5],
    [1, 6],
    [1, 7],
    [2, 0],
    [2, 4],
    [2, 5],
    [2, 6],
    [2, 7],
    [3, 0],
    [3, 1],
    [3, 5],
    [3, 6],
    [3, 7],
    [4, 0],
    [4, 1],
    [4, 2],
    [4, 6],
    [4, 7],
    [5, 0],
    [5, 1],
    [5, 2],
    [5, 3],
    [5, 7],
    [6, 0],
    [6, 1],
    [6, 2],
    [6, 3],
    [6, 4],
    [7, 0],
    [7, 1],
    [7, 2],
    [7, 3],
    [7, 4],
    [7, 5]]

set_option maxRecDepth 16000 in
set_option maxHeartbeats 1000000 in
/-- The boards of `searchLevel 3`, listed literally so each level of
the search can be checked by a small independent computation. -/
def queensLevel3 : List (List Nat) :=
  [[0, 2, 4],
    [0, 2, 5],
    [0, 2, 6],
    [0, 2, 7],
    [0, 3, 1],
    [0, 3, 5],
    [0, 3, 6],
    [0, 3, 7],
    [0, 4, 1],
    [0, 4, 6],
    [0, 4, 7],
    [0, 5, 1],
    [0, 5, 3],
    [0, 5, 7],
    [0, 6, 1],
    [0, 6, 3],
    [0, 6, 4],
    [0, 7, 1],
    [0, 7, 3],
    [0, 7, 4],
    [0, 7, 5],
    [1, 3, 0],
    [1, 3, 5],
    [1, 3, 6],
    [1, 3, 7],
    [1, 4, 0],
    [1, 4, 2],
    [1, 4, 6],
    [1, 4, 7],
    [1, 5, 0],
    [1, 5, 2],
    [1, 5, 7],
    [1, 6, 0],
    [1, 6, 2],
    [1, 6, 4],
    [1, 7, 0],
    [1, 7, 2],
    [1, 7, 4],
    [1, 7, 5],
    [2, 0, 3],
    [2, 0, 5],
    [2, 0, 6],
    [2, 0, 7],
    [2, 4, 1],
    [2, 4, 6],
    [2, 4, 7],
    [2, 5, 1],
    [2, 5, 3],
    [2, 5, 7],
    [2, 6, 1],
    [2, 6, 3],
    [2, 7, 1],
    [2, 7, 3],
    [2, 7, 5],
    [3, 0, 2],
    [3, 0, 4],
    [3, 0, 6],
    [3, 0, 7],
    [3, 1, 4],
    [3, 1, 6],
    [3, 1, 7],
    [3, 5, 0],
    [3, 5, 2],
    [3, 5, 7],
    [3, 6, 0],
    [3, 6, 2],
    [3, 6, 4],
    [3, 7, 0],
    [3, 7, 2],
    [3, 7, 4],
    [4, 0, 3],
    [4, 0, 5],
    [4, 0, 7],
    [4, 1, 3],
    [4, 1, 5],
    [4, 1, 7],
    [4, 2, 0],
    [4, 2, 5],
    [4, 2, 7],
    [4, 6, 0],
    [4, 6, 1],
    [4, 6, 3],
    [4, 7, 0],
    [4, 7, 1],
    [4, 7, 3],
    [4, 7, 5],
    [5, 0, 2],
    [5, 0, 4],
    [5, 0, 6],
    [5, 1, 4],
    [5, 1, 6],
    [5, 2, 0],
    [5, 2, 4],
    [5, 2, 6],
    [5, 3, 0],
    [5, 3, 1],
    [5, 3, 6],
    [5, 7, 0],
    [5, 7, 1],
    [5, 7, 2],
    [5, 7, 4],
    [6, 0, 2],
    [6, 0, 3],
    [6, 0, 5],
    [6, 0, 7],
    [6, 1, 3],
    [6, 1, 5],
    [6, 1, 7],
    [6, 2, 0],
    [6, 2, 5],
    [6, 2, 7],
    [6, 3, 0],
    [6, 3, 1],
    [6, 3, 5],
    [6, 3, 7],
    [6, 4, 0],
    [6, 4, 1],
    [6, 4, 2],
    [6, 4, 7],
    [7, 0, 2],
    [7, 0, 3],
    [7, 0, 4],
    [7, 0, 6],
    [7, 1, 3],
    [7, 1, 4],
    [7, 1, 6],
    [7, 2, 0],
    [7, 2, 4],
    [7, 2, 6],
    [7, 3, 0],
    [7, 3, 1],
    [7, 3, 6],
    [7, 4, 0],
    [7, 4, 1],
    [7, 4, 2],
    [7, 4, 6],
    [7, 5, 0],
    [7, 5, 1],
    [7, 5, 2],
    [7, 5, 3]]

set_option maxRecDepth 16000 in
set_option maxHeartbeats 1000000 in
/-- The boards of `searchLevel 4`, listed literally so each level of
the search can be checked by a small independent computation. -/
def queensLevel4 : List (List Nat) :=
  [[0, 2, 4, 1],
    [0, 2, 4, 6],
    [0, 2, 4, 7],
    [0, 2, 5, 1],
    [0, 2, 5, 7],
    [0, 2, 6, 1],
    [0, 2, 7, 1],
    [0, 2, 7, 5],
    [0, 3, 1, 4],
    [0, 3, 1, 6],
    [0, 3, 1, 7],
    [0, 3, 5, 2],
    [0, 3, 5, 7],
    [0, 3, 6, 2],
    [0, 3, 6, 4],
    [0, 3, 7, 2],
    [0, 3, 7, 4],
    [0, 4, 1, 5],
    [0, 4, 1, 7],
    [0, 4, 6, 1],
    [0, 4, 7, 1],
    [0, 4, 7, 5],
    [0, 5, 1, 4],
    [0, 5, 1, 6],
    [0, 5, 3, 1],
    [0, 5, 3, 6],
    [0, 5, 7, 1],
    [0, 5, 7, 2],
    [0, 5, 7, 4],
    [0, 6, 1, 5],
    [0, 6, 1, 7],
    [0, 6, 3, 1],
    [0, 6, 3, 5],
    [0, 6, 3, 7],
    [0, 6, 4, 1],
    [0, 6, 4, 2],
    [0, 6, 4, 7],
    [0, 7, 1, 4],
    [0, 7, 1, 6],
    [0, 7, 3, 1],
    [0, 7, 3, 6],
    [0, 7, 4, 1],
    [0, 7, 4, 2],
    [0, 7, 4, 6],
    [0, 7, 5, 1],
    [0, 7, 5, 2],
    [1, 3, 0, 2],
    [1, 3, 0, 6],
    [1, 3, 0, 7],
    [1, 3, 5, 0],
    [1, 3, 5, 2],
    [1, 3, 5, 7],
    [1, 3, 6, 0],
    [1, 3, 6, 2],
    [1, 3, 7, 0],
    [1, 3, 7, 2],
    [1, 4, 0, 3],
    [1, 4, 0, 5],
    [1, 4, 0, 7],
    [1, 4, 2, 0],
    [1, 4, 2, 5],
    [1, 4, 2, 7],
    [1, 4, 6, 0],
    [1, 4, 6, 3],
    [1, 4, 7, 0],
    [1, 4, 7, 3],
    [1, 4, 7, 5],
    [1, 5, 0, 2],
    [1, 5, 0, 6],
    [1, 5, 2, 0],
    [1, 5, 2, 6],
    [1, 5, 7, 0],
    [1, 5, 7, 2],
    [1, 6, 0, 2],
    [1, 6, 0, 3],
    [1, 6, 0, 5],
    [1, 6, 0, 7],
    [1, 6, 2, 0],
    [1, 6, 2, 5],
    [1, 6, 2, 7],
    [1, 6, 4, 0],
    [1, 6, 4, 2],
    [1, 6, 4, 7],
    [1, 7, 0, 2],
    [1, 7, 0, 3],
    [1, 7, 0, 6],
    [1, 7, 2, 0],
    [1, 7, 2, 6],
    [1, 7, 4, 0],
    [1, 7, 4, 2],
    [1, 7, 4, 6],
    [1, 7, 5, 0],
    [1, 7, 5, 2],
    [1, 7, 5, 3],
    [2, 0, 3, 1],
    [2, 0, 3, 6],
    [2, 0, 3, 7],
    [2, 0, 5, 1],
    [2, 0, 5, 3],
    [2, 0, 5, 7],
    [2, 0, 6, 1],
    [2, 0, 6, 3],
    [2, 0, 6, 4],
    [2, 0, 7, 1],
    [2, 0, 7, 3],
    [2, 0, 7, 4],
    [2, 4, 1, 3],
    [2, 4, 1, 7],
    [2, 4, 6, 0],
    [2, 4, 6, 1],
    [2, 4, 6, 3],
    [2, 4, 7, 0],
    [2, 4, 7, 1],
    [2, 4, 7, 3],
    [2, 5, 1, 4],
    [2, 5, 1, 6],
    [2, 5, 3, 0],
    [2, 5, 3, 1],
    [2, 5, 3, 6],
    [2, 5, 7, 0],
    [2, 5, 7, 1],
    [2, 5, 7, 4],
    [2, 6, 1, 3],
    [2, 6, 1, 7],
    [2, 6, 3, 0],
    [2, 6, 3, 1],
    [2, 6, 3, 7],
    [2, 7, 1, 3],
    [2, 7, 1, 4],
    [2, 7, 1, 6],
    [2, 7, 3, 0],
    [2, 7, 3, 1],
    [2, 7, 3, 6],
    [2, 7, 5, 0],
    [2, 7, 5, 1],
    [2, 7, 5, 3],
    [3, 0, 2, 4],
    [3, 0, 2, 5],
    [3, 0, 2, 7],
    [3, 0, 4, 1],
    [3, 0, 4, 7],
    [3, 0, 6, 1],
    [3, 0, 6, 4],
    [3, 0, 7, 1],
    [3, 0, 7, 4],
    [3, 0, 7, 5],
    [3, 1, 4, 2],
    [3, 1, 4, 7],
    [3, 1, 6, 2],
    [3, 1, 6, 4],
    [3, 1, 7, 2],
    [3, 1, 7, 4],
    [3, 1, 7, 5],
    [3, 5, 0, 2],
    [3, 5, 0, 4],
    [3, 5, 2, 4],
    [3, 5, 7, 1],
    [3, 5, 7, 2],
    [3, 5, 7, 4],
    [3, 6, 0, 2],
    [3, 6, 0, 5],
    [3, 6, 0, 7],
    [3, 6, 2, 5],
    [3, 6, 2, 7],
    [3, 6, 4, 1],
    [3, 6, 4, 2],
    [3, 6, 4, 7],
    [3, 7, 0, 2],
    [3, 7, 0, 4],
    [3, 7, 2, 4],
    [3, 7, 4, 1],
    [3, 7, 4, 2],
    [4, 0, 3, 5],
    [4, 0, 3, 6],
    [4, 0, 5, 3],
    [4, 0, 7, 3],
    [4, 0, 7, 5],
    [4, 1, 3, 0],
    [4, 1, 3, 5],
    [4, 1, 3, 6],
    [4, 1, 5, 0],
    [4, 1, 5, 2],
    [4, 1, 7, 0],
    [4, 1, 7, 2],
    [4, 1, 7, 5],
    [4, 2, 0, 3],
    [4, 2, 0, 5],
    [4, 2, 0, 6],
    [4, 2, 5, 3],
    [4, 2, 7, 3],
    [4, 2, 7, 5],
    [4, 6, 0, 2],
    [4, 6, 0, 3],
    [4, 6, 0, 5],
    [4, 6, 1, 3],
    [4, 6, 1, 5],
    [4, 6, 3, 0],
    [4, 6, 3, 5],
    [4, 7, 0, 2],
    [4, 7, 0, 3],
    [4, 7, 0, 6],
    [4, 7, 1, 3],
    [4, 7, 1, 6],
    [4, 7, 3, 0],
    [4, 7, 3, 6],
    [4, 7, 5, 0],
    [4, 7, 5, 2],
    [4, 7, 5, 3],
    [5, 0, 2, 4],
    [5, 0, 2, 6],
    [5, 0, 2, 7],
    [5, 0, 4, 1],
    [5, 0, 4, 6],
    [5, 0, 4, 7],
    [5, 0, 6, 1],
    [5, 0, 6, 3],
    [5, 0, 6, 4],
    [5, 1, 4, 0],
    [5, 1, 4, 6],
    [5, 1, 4, 7],
    [5, 1, 6, 0],
    [5, 1, 6, 4],
    [5, 2, 0, 3],
    [5, 2, 0, 6],
    [5, 2, 0, 7],
    [5, 2, 4, 1],
    [5, 2, 4, 6],
    [5, 2, 4, 7],
    [5, 2, 6, 1],
    [5, 2, 6, 3],
    [5, 3, 0, 4],
    [5, 3, 0, 6],
    [5, 3, 0, 7],
    [5, 3, 1, 4],
    [5, 3, 1, 6],
    [5, 3, 1, 7],
    [5, 3, 6, 0],
    [5, 3, 6, 4],
    [5, 7, 0, 3],
    [5, 7, 0, 4],
    [5, 7, 0, 6],
    [5, 7, 1, 3],
    [5, 7, 1, 4],
    [5, 7, 1, 6],
    [5, 7, 2, 0],
    [5, 7, 2, 4],
    [5, 7, 2, 6],
    [5, 7, 4, 0],
    [5, 7, 4, 1],
    [5, 7, 4, 6],
    [6, 0, 2, 4],
    [6, 0, 2, 5],
    [6, 0, 2, 7],
    [6, 0, 3, 1],
    [6, 0, 3, 5],
    [6, 0, 3, 7],
    [6, 0, 5, 1],
    [6, 0, 5, 7],
    [6, 0, 7, 1],
    [6, 0, 7, 4],
    [6, 0, 7, 5],
    [6, 1, 3, 0],
    [6, 1, 3, 5],
    [6, 1, 3, 7],
    [6, 1, 5, 0],
    [6, 1, 5, 2],
    [6, 1, 5, 7],
    [6, 1, 7, 0],
    [6, 1, 7, 2],
    [6, 1, 7, 4],
    [6, 1, 7, 5],
    [6, 2, 0, 5],
    [6, 2, 0, 7],
    [6, 2, 5, 1],
    [6, 2, 5, 7],
    [6, 2, 7, 1],
    [6, 2, 7, 5],
    [6, 3, 0, 2],
    [6, 3, 0, 4],
    [6, 3, 0, 7],
    [6, 3, 1, 4],
    [6, 3, 1, 7],
    [6, 3, 5, 0],
    [6, 3, 5, 2],
    [6, 3, 5, 7],
    [6, 3, 7, 0],
    [6, 3, 7, 2],
    [6, 3, 7, 4],
    [6, 4, 0, 5],
    [6, 4, 0, 7],
    [6, 4, 1, 5],
    [6, 4, 1, 7],
    [6, 4, 2, 0],
    [6, 4, 2, 5],
    [6, 4, 2, 7],
    [6, 4, 7, 0],
    [6, 4, 7, 1],
    [6, 4, 7, 5],
    [7, 0, 2, 5],
    [7, 0, 2, 6],
    [7, 0, 3, 1],
    [7, 0, 3, 5],
    [7, 0, 3, 6],
    [7, 0, 4, 1],
    [7, 0, 4, 6],
    [7, 0, 6, 1],
    [7, 0, 6, 3],
    [7, 1, 3, 0],
    [7, 1, 3, 5],
    [7, 1, 3, 6],
    [7, 1, 4, 0],
    [7, 1, 4, 2],
    [7, 1, 4, 6],
    [7, 1, 6, 0],
    [7, 1, 6, 2],
    [7, 2, 0, 3],
    [7, 2, 0, 5],
    [7, 2, 0, 6],
    [7, 2, 4, 1],
    [7, 2, 4, 6],
    [7, 2, 6, 1],
    [7, 2, 6, 3],
    [7, 3, 0, 2],
    [7, 3, 0, 6],
    [7, 3, 1, 6],
    [7, 3, 6, 0],
    [7, 3, 6, 2],
    [7, 4, 0, 3],
    [7, 4, 0, 5],
    [7, 4, 1, 3],
    [7, 4, 1, 5],
    [7, 4, 2, 0],
    [7, 4, 2, 5],
    [7, 4, 6, 0],
    [7, 4, 6, 1],
    [7, 4, 6, 3],
    [7, 5, 0, 2],
    [7, 5, 0, 6],
    [7, 5, 1, 6],
    [7, 5, 2, 0],
    [7, 5, 2, 6],
    [7, 5, 3, 0],
    [7, 5, 3, 1],
    [7, 5, 3, 6]]

set_option maxRecDepth 16000 in
set_option maxHeartbeats 1000000 in
/-- The boards of `searchLevel 5`, listed literally so each level of
the search can be checked by a small independent computation. -/
def queensLevel5 : List (List Nat) :=
  [[0, 2, 4, 1, 3],
    [0, 2, 4, 1, 7],
    [0, 2, 4, 6, 1],
    [0, 2, 4, 6, 3],
    [0, 2, 4, 7, 1],
    [0, 2, 4, 7, 3],
    [0, 2, 5, 1, 6],
    [0, 2, 5, 7, 1],
    [0, 2, 6, 1, 3],
    [0, 2, 6, 1, 7],
    [0, 2, 7, 1, 3],
    [0, 2, 7, 1, 6],
    [0, 2, 7, 5, 1],
    [0, 2, 7, 5, 3],
    [0, 3, 1, 4, 2],
    [0, 3, 1, 4, 7],
    [0, 3, 1, 6, 2],
    [0, 3, 1, 7, 2],
    [0, 3, 1, 7, 5],
    [0, 3, 5, 7, 1],
    [0, 3, 5, 7, 2],
    [0, 3, 6, 2, 5],
    [0, 3, 6, 2, 7],
    [0, 3, 6, 4, 1],
    [0, 3, 6, 4, 2],
    [0, 3, 6, 4, 7],
    [0, 3, 7, 4, 1],
    [0, 3, 7, 4, 2],
    [0, 4, 1, 5, 2],
    [0, 4, 1, 7, 2],
    [0, 4, 1, 7, 5],
    [0, 4, 6, 1, 3],
    [0, 4, 6, 1, 5],
    [0, 4, 7, 1, 3],
    [0, 4, 7, 1, 6],
    [0, 4, 7, 5, 2],
    [0, 4, 7, 5, 3],
    [0, 5, 1, 4, 6],
    [0, 5, 1, 4, 7],
    [0, 5, 3, 1, 6],
    [0, 5, 3, 1, 7],
    [0, 5, 7, 1, 3],
    [0, 5, 7, 1, 6],
    [0, 5, 7, 2, 6],
    [0, 5, 7, 4, 1],
    [0, 5, 7, 4, 6],
    [0, 6, 1, 5, 2],
    [0, 6, 1, 5, 7],
    [0, 6, 1, 7, 2],
    [0, 6, 1, 7, 5],
    [0, 6, 3, 1, 7],
    [0, 6, 3, 5, 2],
    [0, 6, 3, 5, 7],
    [0, 6, 3, 7, 2],
    [0, 6, 4, 1, 5],
    [0, 6, 4, 1, 7],
    [0, 6, 4, 2, 5],
    [0, 6, 4, 2, 7],
    [0, 6, 4, 7, 1],
    [0, 6, 4, 7, 5],
    [0, 7, 1, 4, 2],
    [0, 7, 1, 4, 6],
    [0, 7, 1, 6, 2],
    [0, 7, 3, 1, 6],
    [0, 7, 3, 6, 2],
    [0, 7, 4, 1, 3],
    [0, 7, 4, 1, 5],
    [0, 7, 4, 2, 5],
    [0, 7, 4, 6, 1],
    [0, 7, 4, 6, 3],
    [0, 7, 5, 1, 6],
    [0, 7, 5, 2, 6],
    [1, 3, 0, 2, 4],
    [1, 3, 0, 2, 7],
    [1, 3, 0, 6, 4],
    [1, 3, 0, 7, 4],
    [1, 3, 5, 0, 2],
    [1, 3, 5, 0, 4],
    [1, 3, 5, 2, 4],
    [1, 3, 5, 7, 2],
    [1, 3, 5, 7, 4],
    [1, 3, 6, 0, 2],
    [1, 3, 6, 0, 7],
    [1, 3, 6, 2, 7],
    [1, 3, 7, 0, 2],
    [1, 3, 7, 0, 4],
    [1, 3, 7, 2, 4],
    [1, 4, 0, 3, 6],
    [1, 4, 0, 5, 3],
    [1, 4, 0, 7, 3],
    [1, 4, 2, 0, 3],
    [1, 4, 2, 0, 6],
    [1, 4, 2, 5, 3],
    [1, 4, 2, 7, 3],
    [1, 4, 6, 0, 2],
    [1, 4, 6, 0, 3],
    [1, 4, 6, 3, 0],
    [1, 4, 7, 0, 2],
    [1, 4, 7, 0, 3],
    [1, 4, 7, 0, 6],
    [1, 4, 7, 3, 0],
    [1, 4, 7, 3, 6],
    [1, 4, 7, 5, 0],
    [1, 4, 7, 5, 2],
    [1, 4, 7, 5, 3],
    [1, 5, 0, 2, 4],
    [1, 5, 0, 2, 6],
    [1, 5, 0, 2, 7],
    [1, 5, 0, 6, 3],
    [1, 5, 0, 6, 4],
    [1, 5, 2, 0, 3],
    [1, 5, 2, 0, 6],
    [1, 5, 2, 0, 7],
    [1, 5, 2, 6, 3],
    [1, 5, 7, 0, 3],
    [1, 5, 7, 0, 4],
    [1, 5, 7, 0, 6],
    [1, 5, 7, 2, 0],
    [1, 5, 7, 2, 4],
    [1, 5, 7, 2, 6],
    [1, 6, 0, 2, 4],
    [1, 6, 0, 2, 7],
    [1, 6, 0, 3, 7],
    [1, 6, 0, 5, 7],
    [1, 6, 0, 7, 4],
    [1, 6, 2, 0, 7],
    [1, 6, 2, 5, 7],
    [1, 6, 4, 0, 7],
    [1, 6, 4, 2, 0],
    [1, 6, 4, 2, 7],
    [1, 6, 4, 7, 0],
    [1, 7, 0, 2, 6],
    [1, 7, 0, 3, 6],
    [1, 7, 0, 6, 3],
    [1, 7, 2, 0, 3],
    [1, 7, 2, 0, 6],
    [1, 7, 2, 6, 3],
    [1, 7, 4, 0, 3],
    [1, 7, 4, 2, 0],
    [1, 7, 4, 6, 0],
    [1, 7, 4, 6, 3],
    [1, 7, 5, 0, 2],
    [1, 7, 5, 0, 6],
    [1, 7, 5, 2, 0],
    [1, 7, 5, 2, 6],
    [1, 7, 5, 3, 0],
    [1, 7, 5, 3, 6],
    [2, 0, 3, 1, 4],
    [2, 0, 3, 1, 7],
    [2, 0, 3, 6, 4],
    [2, 0, 3, 7, 4],
    [2, 0, 5, 1, 4],
    [2, 0, 5, 3, 1],
    [2, 0, 5, 7, 1],
    [2, 0, 5, 7, 4],
    [2, 0, 6, 1, 5],
    [2, 0, 6, 1, 7],
    [2, 0, 6, 3, 1],
    [2, 0, 6, 3, 5],
    [2, 0, 6, 3, 7],
    [2, 0, 6, 4, 1],
    [2, 0, 6, 4, 7],
    [2, 0, 7, 1, 4],
    [2, 0, 7, 3, 1],
    [2, 0, 7, 4, 1],
    [2, 4, 1, 3, 0],
    [2, 4, 1, 3, 5],
    [2, 4, 1, 7, 0],
    [2, 4, 1, 7, 5],
    [2, 4, 6, 0, 3],
    [2, 4, 6, 0, 5],
    [2, 4, 6, 1, 3],
    [2, 4, 6, 1, 5],
    [2, 4, 6, 3, 0],
    [2, 4, 6, 3, 5],
    [2, 4, 7, 0, 3],
    [2, 4, 7, 1, 3],
    [2, 4, 7, 3, 0],
    [2, 5, 1, 4, 0],
    [2, 5, 1, 4, 7],
    [2, 5, 1, 6, 0],
    [2, 5, 1, 6, 4],
    [2, 5, 3, 0, 4],
    [2, 5, 3, 0, 7],
    [2, 5, 3, 1, 4],
    [2, 5, 3, 1, 7],
    [2, 5, 3, 6, 0],
    [2, 5, 3, 6, 4],
    [2, 5, 7, 0, 3],
    [2, 5, 7, 0, 4],
    [2, 5, 7, 1, 3],
    [2, 5, 7, 1, 4],
    [2, 5, 7, 4, 0],
    [2, 5, 7, 4, 1],
    [2, 6, 1, 3, 0],
    [2, 6, 1, 3, 5],
    [2, 6, 1, 3, 7],
    [2, 6, 1, 7, 0],
    [2, 6, 1, 7, 4],
    [2, 6, 1, 7, 5],
    [2, 6, 3, 0, 4],
    [2, 6, 3, 0, 7],
    [2, 6, 3, 1, 4],
    [2, 6, 3, 1, 7],
    [2, 6, 3, 7, 0],
    [2, 6, 3, 7, 4],
    [2, 7, 1, 3, 0],
    [2, 7, 1, 3, 5],
    [2, 7, 1, 4, 0],
    [2, 7, 1, 6, 0],
    [2, 7, 3, 6, 0],
    [2, 7, 5, 3, 0],
    [2, 7, 5, 3, 1],
    [3, 0, 2, 4, 1],
    [3, 0, 2, 4, 6],
    [3, 0, 2, 5, 1],
    [3, 0, 2, 7, 1],
    [3, 0, 2, 7, 5],
    [3, 0, 4, 1, 5],
    [3, 0, 4, 7, 1],
    [3, 0, 4, 7, 5],
    [3, 0, 6, 1, 5],
    [3, 0, 6, 4, 1],
    [3, 0, 6, 4, 2],
    [3, 0, 7, 1, 4],
    [3, 0, 7, 1, 6],
    [3, 0, 7, 4, 1],
    [3, 0, 7, 4, 2],
    [3, 0, 7, 4, 6],
    [3, 0, 7, 5, 1],
    [3, 0, 7, 5, 2],
    [3, 1, 4, 2, 0],
    [3, 1, 4, 2, 5],
    [3, 1, 4, 7, 0],
    [3, 1, 4, 7, 5],
    [3, 1, 6, 2, 0],
    [3, 1, 6, 2, 5],
    [3, 1, 6, 4, 0],
    [3, 1, 6, 4, 2],
    [3, 1, 7, 2, 0],
    [3, 1, 7, 2, 6],
    [3, 1, 7, 4, 0],
    [3, 1, 7, 4, 2],
    [3, 1, 7, 4, 6],
    [3, 1, 7, 5, 0],
    [3, 1, 7, 5, 2],
    [3, 5, 0, 2, 4],
    [3, 5, 0, 2, 6],
    [3, 5, 0, 4, 1],
    [3, 5, 0, 4, 6],
    [3, 5, 2, 4, 1],
    [3, 5, 2, 4, 6],
    [3, 5, 7, 1, 4],
    [3, 5, 7, 1, 6],
    [3, 5, 7, 2, 0],
    [3, 5, 7, 2, 4],
    [3, 5, 7, 2, 6],
    [3, 5, 7, 4, 0],
    [3, 5, 7, 4, 1],
    [3, 5, 7, 4, 6],
    [3, 6, 0, 2, 4],
    [3, 6, 0, 2, 5],
    [3, 6, 0, 5, 1],
    [3, 6, 0, 7, 1],
    [3, 6, 0, 7, 4],
    [3, 6, 0, 7, 5],
    [3, 6, 2, 5, 1],
    [3, 6, 2, 7, 1],
    [3, 6, 2, 7, 5],
    [3, 6, 4, 1, 5],
    [3, 6, 4, 2, 0],
    [3, 6, 4, 2, 5],
    [3, 6, 4, 7, 0],
    [3, 6, 4, 7, 1],
    [3, 6, 4, 7, 5],
    [3, 7, 0, 2, 5],
    [3, 7, 0, 2, 6],
    [3, 7, 0, 4, 1],
    [3, 7, 0, 4, 6],
    [3, 7, 2, 4, 1],
    [3, 7, 2, 4, 6],
    [3, 7, 4, 1, 5],
    [3, 7, 4, 2, 0],
    [3, 7, 4, 2, 5],
    [4, 0, 3, 5, 2],
    [4, 0, 3, 5, 7],
    [4, 0, 3, 6, 2],
    [4, 0, 5, 3, 1],
    [4, 0, 5, 3, 6],
    [4, 0, 7, 3, 1],
    [4, 0, 7, 3, 6],
    [4, 0, 7, 5, 1],
    [4, 0, 7, 5, 2],
    [4, 1, 3, 0, 2],
    [4, 1, 3, 0, 6],
    [4, 1, 3, 0, 7],
    [4, 1, 3, 5, 2],
    [4, 1, 3, 5, 7],
    [4, 1, 3, 6, 2],
    [4, 1, 5, 0, 2],
    [4, 1, 5, 0, 6],
    [4, 1, 5, 2, 6],
    [4, 1, 7, 0, 2],
    [4, 1, 7, 0, 3],
    [4, 1, 7, 0, 6],
    [4, 1, 7, 2, 6],
    [4, 1, 7, 5, 2],
    [4, 1, 7, 5, 3],
    [4, 2, 0, 3, 1],
    [4, 2, 0, 3, 6],
    [4, 2, 0, 3, 7],
    [4, 2, 0, 5, 1],
    [4, 2, 0, 5, 3],
    [4, 2, 0, 5, 7],
    [4, 2, 0, 6, 1],
    [4, 2, 0, 6, 3],
    [4, 2, 5, 3, 1],
    [4, 2, 5, 3, 6],
    [4, 2, 7, 3, 1],
    [4, 2, 7, 3, 6],
    [4, 2, 7, 5, 1],
    [4, 2, 7, 5, 3],
    [4, 6, 0, 2, 5],
    [4, 6, 0, 2, 7],
    [4, 6, 0, 3, 1],
    [4, 6, 0, 3, 5],
    [4, 6, 0, 3, 7],
    [4, 6, 0, 5, 1],
    [4, 6, 0, 5, 7],
    [4, 6, 1, 3, 5],
    [4, 6, 1, 3, 7],
    [4, 6, 1, 5, 2],
    [4, 6, 1, 5, 7],
    [4, 6, 3, 0, 2],
    [4, 6, 3, 0, 7],
    [4, 6, 3, 5, 2],
    [4, 6, 3, 5, 7],
    [4, 7, 0, 2, 5],
    [4, 7, 0, 2, 6],
    [4, 7, 0, 3, 1],
    [4, 7, 0, 3, 5],
    [4, 7, 0, 3, 6],
    [4, 7, 0, 6, 1],
    [4, 7, 0, 6, 3],
    [4, 7, 1, 3, 5],
    [4, 7, 1, 3, 6],
    [4, 7, 1, 6, 2],
    [4, 7, 3, 0, 2],
    [4, 7, 3, 0, 6],
    [4, 7, 3, 6, 2],
    [4, 7, 5, 0, 2],
    [4, 7, 5, 0, 6],
    [4, 7, 5, 2, 6],
    [4, 7, 5, 3, 1],
    [4, 7, 5, 3, 6],
    [5, 0, 2, 4, 6],
    [5, 0, 2, 4, 7],
    [5, 0, 4, 1, 7],
    [5, 0, 6, 1, 7],
    [5, 0, 6, 3, 7],
    [5, 0, 6, 4, 2],
    [5, 0, 6, 4, 7],
    [5, 1, 4, 0, 3],
    [5, 1, 4, 0, 7],
    [5, 1, 4, 6, 0],
    [5, 1, 4, 6, 3],
    [5, 1, 4, 7, 0],
    [5, 1, 4, 7, 3],
    [5, 1, 6, 0, 2],
    [5, 1, 6, 0, 3],
    [5, 1, 6, 0, 7],
    [5, 1, 6, 4, 0],
    [5, 1, 6, 4, 2],
    [5, 1, 6, 4, 7],
    [5, 2, 0, 3, 6],
    [5, 2, 0, 3, 7],
    [5, 2, 0, 6, 3],
    [5, 2, 0, 6, 4],
    [5, 2, 0, 7, 3],
    [5, 2, 0, 7, 4],
    [5, 2, 4, 1, 3],
    [5, 2, 4, 1, 7],
    [5, 2, 4, 6, 0],
    [5, 2, 4, 6, 3],
    [5, 2, 4, 7, 0],
    [5, 2, 4, 7, 3],
    [5, 2, 6, 1, 3],
    [5, 2, 6, 1, 7],
    [5, 2, 6, 3, 0],
    [5, 2, 6, 3, 7],
    [5, 3, 0, 4, 7],
    [5, 3, 0, 6, 4],
    [5, 3, 0, 7, 4],
    [5, 3, 1, 4, 2],
    [5, 3, 1, 4, 7],
    [5, 3, 1, 6, 2],
    [5, 3, 1, 6, 4],
    [5, 3, 1, 7, 2],
    [5, 3, 1, 7, 4],
    [5, 3, 6, 0, 2],
    [5, 3, 6, 0, 7],
    [5, 3, 6, 4, 2],
    [5, 3, 6, 4, 7],
    [5, 7, 0, 3, 6],
    [5, 7, 0, 4, 6],
    [5, 7, 0, 6, 3],
    [5, 7, 1, 3, 0],
    [5, 7, 1, 3, 6],
    [5, 7, 1, 4, 0],
    [5, 7, 1, 4, 2],
    [5, 7, 1, 4, 6],
    [5, 7, 1, 6, 0],
    [5, 7, 1, 6, 2],
    [5, 7, 2, 0, 3],
    [5, 7, 2, 0, 6],
    [5, 7, 2, 4, 6],
    [5, 7, 2, 6, 3],
    [5, 7, 4, 0, 3],
    [5, 7, 4, 1, 3],
    [5, 7, 4, 6, 0],
    [5, 7, 4, 6, 3],
    [6, 0, 2, 4, 1],
    [6, 0, 2, 4, 7],
    [6, 0, 2, 5, 1],
    [6, 0, 2, 5, 7],
    [6, 0, 2, 7, 1],
    [6, 0, 2, 7, 5],
    [6, 0, 3, 1, 4],
    [6, 0, 3, 1, 7],
    [6, 0, 3, 5, 7],
    [6, 0, 3, 7, 4],
    [6, 0, 5, 1, 4],
    [6, 0, 5, 7, 1],
    [6, 0, 5, 7, 4],
    [6, 0, 7, 1, 4],
    [6, 0, 7, 4, 1],
    [6, 0, 7, 5, 1],
    [6, 1, 3, 0, 7],
    [6, 1, 3, 5, 0],
    [6, 1, 3, 5, 7],
    [6, 1, 3, 7, 0],
    [6, 1, 5, 2, 0],
    [6, 1, 5, 7, 0],
    [6, 1, 7, 0, 3],
    [6, 1, 7, 2, 0],
    [6, 1, 7, 4, 0],
    [6, 1, 7, 5, 0],
    [6, 1, 7, 5, 3],
    [6, 2, 0, 5, 1],
    [6, 2, 0, 5, 3],
    [6, 2, 0, 5, 7],
    [6, 2, 0, 7, 1],
    [6, 2, 0, 7, 3],
    [6, 2, 0, 7, 4],
    [6, 2, 5, 1, 4],
    [6, 2, 5, 7, 0],
    [6, 2, 5, 7, 1],
    [6, 2, 5, 7, 4],
    [6, 2, 7, 1, 3],
    [6, 2, 7, 1, 4],
    [6, 2, 7, 5, 0],
    [6, 2, 7, 5, 1],
    [6, 2, 7, 5, 3],
    [6, 3, 0, 2, 4],
    [6, 3, 0, 2, 5],
    [6, 3, 0, 2, 7],
    [6, 3, 0, 4, 1],
    [6, 3, 0, 4, 7],
    [6, 3, 0, 7, 1],
    [6, 3, 0, 7, 4],
    [6, 3, 0, 7, 5],
    [6, 3, 1, 4, 7],
    [6, 3, 1, 7, 4],
    [6, 3, 1, 7, 5],
    [6, 3, 5, 0, 4],
    [6, 3, 5, 2, 4],
    [6, 3, 5, 7, 1],
    [6, 3, 5, 7, 4],
    [6, 3, 7, 0, 4],
    [6, 3, 7, 2, 4],
    [6, 3, 7, 4, 1],
    [6, 4, 0, 5, 3],
    [6, 4, 0, 7, 3],
    [6, 4, 0, 7, 5],
    [6, 4, 1, 5, 0],
    [6, 4, 1, 7, 0],
    [6, 4, 1, 7, 5],
    [6, 4, 2, 0, 3],
    [6, 4, 2, 0, 5],
    [6, 4, 2, 5, 3],
    [6, 4, 2, 7, 3],
    [6, 4, 2, 7, 5],
    [6, 4, 7, 0, 3],
    [6, 4, 7, 1, 3],
    [6, 4, 7, 5, 0],
    [6, 4, 7, 5, 3],
    [7, 0, 2, 5, 1],
    [7, 0, 2, 6, 1],
    [7, 0, 3, 1, 4],
    [7, 0, 3, 1, 6],
    [7, 0, 3, 5, 2],
    [7, 0, 3, 6, 2],
    [7, 0, 3, 6, 4],
    [7, 0, 4, 1, 5],
    [7, 0, 4, 6, 1],
    [7, 0, 6, 1, 5],
    [7, 0, 6, 3, 1],
    [7, 0, 6, 3, 5],
    [7, 1, 3, 0, 2],
    [7, 1, 3, 0, 6],
    [7, 1, 3, 5, 0],
    [7, 1, 3, 5, 2],
    [7, 1, 3, 6, 0],
    [7, 1, 3, 6, 2],
    [7, 1, 4, 0, 5],
    [7, 1, 4, 2, 0],
    [7, 1, 4, 2, 5],
    [7, 1, 4, 6, 0],
    [7, 1, 6, 0, 2],
    [7, 1, 6, 0, 5],
    [7, 1, 6, 2, 0],
    [7, 1, 6, 2, 5],
    [7, 2, 0, 3, 1],
    [7, 2, 0, 3, 6],
    [7, 2, 0, 5, 1],
    [7, 2, 0, 6, 1],
    [7, 2, 0, 6, 4],
    [7, 2, 4, 6, 0],
    [7, 2, 4, 6, 1],
    [7, 2, 6, 3, 0],
    [7, 2, 6, 3, 1],
    [7, 3, 0, 2, 4],
    [7, 3, 0, 2, 5],
    [7, 3, 0, 6, 1],
    [7, 3, 0, 6, 4],
    [7, 3, 1, 6, 2],
    [7, 3, 1, 6, 4],
    [7, 3, 6, 0, 2],
    [7, 3, 6, 0, 5],
    [7, 3, 6, 2, 5],
    [7, 4, 0, 3, 5],
    [7, 4, 0, 3, 6],
    [7, 4, 1, 3, 0],
    [7, 4, 1, 3, 5],
    [7, 4, 1, 3, 6],
    [7, 4, 1, 5, 0],
    [7, 4, 1, 5, 2],
    [7, 4, 2, 0, 5],
    [7, 4, 2, 0, 6],
    [7, 4, 6, 0, 2],
    [7, 4, 6, 0, 5],
    [7, 4, 6, 1, 5],
    [7, 4, 6, 3, 0],
    [7, 4, 6, 3, 5],
    [7, 5, 0, 2, 4],
    [7, 5, 0, 2, 6],
    [7, 5, 0, 6, 1],
    [7, 5, 0, 6, 4],
    [7, 5, 1, 6, 0],
    [7, 5, 1, 6, 4],
    [7, 5, 2, 0, 6],
    [7, 5, 2, 6, 1],
    [7, 5, 3, 0, 4],
    [7, 5, 3, 0, 6],
    [7, 5, 3, 1, 4],
    [7, 5, 3, 1, 6],
    [7, 5, 3, 6, 0],
    [7, 5, 3, 6, 4]]

set_option maxRecDepth 16000 in
set_option maxHeartbeats 1000000 in
/-- The boards of `searchLevel 6`, listed literally so each level of
the search can be checked by a small independent computation. -/
def queensLevel6 : List (List Nat) :=
  [[0, 2, 4, 6, 1, 3],
    [0, 2, 4, 7, 1, 3],
    [0, 2, 5, 1, 6, 4],
    [0, 2, 5, 7, 1, 3],
    [0, 2, 5, 7, 1, 4],
    [0, 2, 6, 1, 3, 7],
    [0, 2, 6, 1, 7, 4],
    [0, 2, 7, 5, 3, 1],
    [0, 3, 1, 7, 2, 6],
    [0, 3, 1, 7, 5, 2],
    [0, 3, 5, 7, 1, 4],
    [0, 3, 5, 7, 1, 6],
    [0, 3, 5, 7, 2, 4],
    [0, 3, 5, 7, 2, 6],
    [0, 3, 6, 2, 5, 1],
    [0, 3, 6, 2, 7, 1],
    [0, 3, 6, 4, 7, 1],
    [0, 4, 1, 5, 2, 6],
    [0, 4, 1, 7, 2, 6],
    [0, 4, 1, 7, 5, 2],
    [0, 4, 1, 7, 5, 3],
    [0, 4, 6, 1, 3, 7],
    [0, 4, 6, 1, 5, 2],
    [0, 4, 6, 1, 5, 7],
    [0, 4, 7, 1, 3, 6],
    [0, 4, 7, 1, 6, 2],
    [0, 4, 7, 5, 2, 6],
    [0, 4, 7, 5, 3, 1],
    [0, 4, 7, 5, 3, 6],
    [0, 5, 1, 4, 6, 3],
    [0, 5, 1, 4, 7, 3],
    [0, 5, 3, 1, 6, 2],
    [0, 5, 3, 1, 6, 4],
    [0, 5, 3, 1, 7, 2],
    [0, 5, 3, 1, 7, 4],
    [0, 5, 7, 1, 3, 6],
    [0, 5, 7, 1, 6, 2],
    [0, 5, 7, 2, 6, 3],
    [0, 5, 7, 4, 1, 3],
    [0, 5, 7, 4, 6, 3],
    [0, 6, 1, 7, 5, 3],
    [0, 6, 3, 1, 7, 4],
    [0, 6, 3, 5, 2, 4],
    [0, 6, 3, 5, 7, 1],
    [0, 6, 3, 5, 7, 4],
    [0, 6, 3, 7, 2, 4],
    [0, 6, 4, 2, 5, 3],
    [0, 6, 4, 2, 7, 3],
    [0, 6, 4, 7, 1, 3],
    [0, 6, 4, 7, 5, 3],
    [0, 7, 3, 1, 6, 2],
    [0, 7, 3, 1, 6, 4],
    [0, 7, 4, 1, 3, 6],
    [0, 7, 4, 1, 5, 2],
    [0, 7, 5, 1, 6, 4],
    [0, 7, 5, 2, 6, 1],
    [1, 3, 0, 2, 7, 5],
    [1, 3, 0, 6, 4, 2],
    [1, 3, 0, 7, 4, 2],
    [1, 3, 5, 0, 2, 4],
    [1, 3, 5, 7, 2, 0],
    [1, 3, 5, 7, 2, 4],
    [1, 3, 5, 7, 4, 0],
    [1, 3, 6, 0, 2, 4],
    [1, 3, 6, 0, 2, 5],
    [1, 3, 6, 0, 7, 4],
    [1, 3, 6, 0, 7, 5],
    [1, 3, 6, 2, 7, 5],
    [1, 3, 7, 0, 2, 5],
    [1, 4, 0, 3, 6, 2],
    [1, 4, 2, 0, 3, 7],
    [1, 4, 2, 0, 6, 3],
    [1, 4, 6, 0, 2, 5],
    [1, 4, 6, 0, 2, 7],
    [1, 4, 6, 0, 3, 5],
    [1, 4, 6, 0, 3, 7],
    [1, 4, 6, 3, 0, 2],
    [1, 4, 6, 3, 0, 7],
    [1, 4, 7, 0, 2, 5],
    [1, 4, 7, 0, 3, 5],
    [1, 4, 7, 0, 6, 3],
    [1, 4, 7, 3, 0, 2],
    [1, 4, 7, 3, 6, 2],
    [1, 4, 7, 5, 0, 2],
    [1, 5, 0, 2, 4, 7],
    [1, 5, 0, 6, 3, 7],
    [1, 5, 0, 6, 4, 2],
    [1, 5, 0, 6, 4, 7],
    [1, 5, 2, 0, 3, 7],
    [1, 5, 2, 0, 6, 3],
    [1, 5, 2, 0, 6, 4],
    [1, 5, 2, 0, 7, 3],
    [1, 5, 2, 0, 7, 4],
    [1, 5, 2, 6, 3, 0],
    [1, 5, 2, 6, 3, 7],
    [1, 5, 7, 0, 6, 3],
    [1, 5, 7, 2, 0, 3],
    [1, 5, 7, 2, 6, 3],
    [1, 6, 0, 2, 4, 7],
    [1, 6, 0, 2, 7, 5],
    [1, 6, 0, 3, 7, 4],
    [1, 6, 0, 5, 7, 4],
    [1, 6, 2, 0, 7, 3],
    [1, 6, 2, 0, 7, 4],
    [1, 6, 2, 5, 7, 0],
    [1, 6, 2, 5, 7, 4],
    [1, 6, 4, 0, 7, 3],
    [1, 6, 4, 0, 7, 5],
    [1, 6, 4, 2, 0, 3],
    [1, 6, 4, 2, 0, 5],
    [1, 6, 4, 2, 7, 3],
    [1, 6, 4, 2, 7, 5],
    [1, 6, 4, 7, 0, 3],
    [1, 7, 0, 3, 6, 2],
    [1, 7, 0, 3, 6, 4],
    [1, 7, 0, 6, 3, 5],
    [1, 7, 2, 0, 6, 4],
    [1, 7, 2, 6, 3, 0],
    [1, 7, 4, 0, 3, 5],
    [1, 7, 4, 2, 0, 5],
    [1, 7, 4, 6, 0, 2],
    [1, 7, 4, 6, 0, 5],
    [1, 7, 4, 6, 3, 0],
    [1, 7, 4, 6, 3, 5],
    [1, 7, 5, 0, 2, 4],
    [1, 7, 5, 0, 6, 4],
    [1, 7, 5, 3, 0, 4],
    [1, 7, 5, 3, 6, 0],
    [1, 7, 5, 3, 6, 4],
    [2, 0, 3, 1, 7, 5],
    [2, 0, 3, 6, 4, 1],
    [2, 0, 3, 7, 4, 1],
    [2, 0, 5, 1, 4, 6],
    [2, 0, 5, 3, 1, 6],
    [2, 0, 5, 7, 1, 3],
    [2, 0, 5, 7, 1, 6],
    [2, 0, 5, 7, 4, 1],
    [2, 0, 5, 7, 4, 6],
    [2, 0, 6, 1, 7, 5],
    [2, 0, 6, 4, 1, 5],
    [2, 0, 6, 4, 7, 1],
    [2, 0, 6, 4, 7, 5],
    [2, 0, 7, 1, 4, 6],
    [2, 0, 7, 3, 1, 6],
    [2, 0, 7, 4, 1, 3],
    [2, 0, 7, 4, 1, 5],
    [2, 4, 1, 3, 0, 6],
    [2, 4, 1, 7, 0, 3],
    [2, 4, 1, 7, 0, 6],
    [2, 4, 1, 7, 5, 3],
    [2, 4, 6, 0, 3, 1],
    [2, 4, 6, 0, 3, 5],
    [2, 4, 6, 0, 5, 1],
    [2, 4, 6, 1, 3, 5],
    [2, 4, 7, 0, 3, 1],
    [2, 4, 7, 0, 3, 5],
    [2, 4, 7, 0, 3, 6],
    [2, 4, 7, 1, 3, 5],
    [2, 4, 7, 1, 3, 6],
    [2, 4, 7, 3, 0, 6],
    [2, 5, 1, 4, 0, 3],
    [2, 5, 1, 4, 7, 0],
    [2, 5, 1, 4, 7, 3],
    [2, 5, 1, 6, 0, 3],
    [2, 5, 1, 6, 4, 0],
    [2, 5, 3, 0, 7, 4],
    [2, 5, 3, 1, 7, 4],
    [2, 5, 7, 0, 3, 6],
    [2, 5, 7, 0, 4, 6],
    [2, 5, 7, 1, 3, 0],
    [2, 5, 7, 1, 3, 6],
    [2, 5, 7, 1, 4, 0],
    [2, 5, 7, 1, 4, 6],
    [2, 5, 7, 4, 0, 3],
    [2, 5, 7, 4, 1, 3],
    [2, 6, 1, 3, 5, 0],
    [2, 6, 1, 3, 7, 0],
    [2, 6, 1, 7, 0, 3],
    [2, 6, 1, 7, 4, 0],
    [2, 6, 1, 7, 5, 0],
    [2, 6, 1, 7, 5, 3],
    [2, 6, 3, 0, 4, 1],
    [2, 6, 3, 0, 7, 1],
    [2, 6, 3, 0, 7, 4],
    [2, 6, 3, 0, 7, 5],
    [2, 6, 3, 1, 7, 4],
    [2, 6, 3, 1, 7, 5],
    [2, 6, 3, 7, 0, 4],
    [2, 6, 3, 7, 4, 1],
    [2, 7, 1, 3, 0, 6],
    [2, 7, 1, 3, 5, 0],
    [2, 7, 1, 4, 0, 5],
    [2, 7, 1, 6, 0, 5],
    [2, 7, 3, 6, 0, 5],
    [2, 7, 5, 3, 0, 4],
    [2, 7, 5, 3, 0, 6],
    [2, 7, 5, 3, 1, 4],
    [2, 7, 5, 3, 1, 6],
    [3, 0, 2, 4, 1, 7],
    [3, 0, 2, 4, 6, 1],
    [3, 0, 2, 5, 1, 6],
    [3, 0, 2, 7, 1, 6],
    [3, 0, 2, 7, 5, 1],
    [3, 0, 4, 1, 5, 2],
    [3, 0, 4, 7, 1, 6],
    [3, 0, 4, 7, 5, 2],
    [3, 0, 6, 1, 5, 2],
    [3, 0, 6, 1, 5, 7],
    [3, 0, 6, 4, 1, 5],
    [3, 0, 6, 4, 1, 7],
    [3, 0, 6, 4, 2, 5],
    [3, 0, 6, 4, 2, 7],
    [3, 0, 7, 1, 4, 2],
    [3, 0, 7, 1, 4, 6],
    [3, 0, 7, 1, 6, 2],
    [3, 0, 7, 4, 1, 5],
    [3, 0, 7, 4, 2, 5],
    [3, 0, 7, 4, 6, 1],
    [3, 0, 7, 5, 1, 6],
    [3, 0, 7, 5, 2, 6],
    [3, 1, 4, 2, 0, 6],
    [3, 1, 4, 7, 0, 2],
    [3, 1, 4, 7, 0, 6],
    [3, 1, 4, 7, 5, 0],
    [3, 1, 4, 7, 5, 2],
    [3, 1, 6, 2, 0, 7],
    [3, 1, 6, 2, 5, 7],
    [3, 1, 6, 4, 0, 7],
    [3, 1, 6, 4, 2, 0],
    [3, 1, 6, 4, 2, 7],
    [3, 1, 7, 2, 0, 6],
    [3, 1, 7, 4, 2, 0],
    [3, 1, 7, 4, 6, 0],
    [3, 1, 7, 5, 0, 2],
    [3, 1, 7, 5, 0, 6],
    [3, 1, 7, 5, 2, 0],
    [3, 1, 7, 5, 2, 6],
    [3, 5, 0, 2, 4, 6],
    [3, 5, 0, 2, 4, 7],
    [3, 5, 0, 4, 1, 7],
    [3, 5, 2, 4, 1, 7],
    [3, 5, 2, 4, 6, 0],
    [3, 5, 7, 1, 4, 0],
    [3, 5, 7, 1, 4, 2],
    [3, 5, 7, 1, 4, 6],
    [3, 5, 7, 1, 6, 0],
    [3, 5, 7, 1, 6, 2],
    [3, 5, 7, 2, 0, 6],
    [3, 5, 7, 2, 4, 6],
    [3, 5, 7, 4, 6, 0],
    [3, 6, 0, 2, 4, 1],
    [3, 6, 0, 2, 4, 7],
    [3, 6, 0, 2, 5, 1],
    [3, 6, 0, 2, 5, 7],
    [3, 6, 0, 5, 1, 4],
    [3, 6, 0, 7, 1, 4],
    [3, 6, 0, 7, 4, 1],
    [3, 6, 0, 7, 5, 1],
    [3, 6, 2, 5, 1, 4],
    [3, 6, 2, 7, 1, 4],
    [3, 6, 2, 7, 5, 0],
    [3, 6, 2, 7, 5, 1],
    [3, 6, 4, 1, 5, 0],
    [3, 6, 4, 2, 0, 5],
    [3, 6, 4, 7, 5, 0],
    [3, 7, 0, 2, 5, 1],
    [3, 7, 0, 2, 6, 1],
    [3, 7, 0, 4, 1, 5],
    [3, 7, 0, 4, 6, 1],
    [3, 7, 2, 4, 6, 0],
    [3, 7, 2, 4, 6, 1],
    [3, 7, 4, 1, 5, 0],
    [3, 7, 4, 1, 5, 2],
    [3, 7, 4, 2, 0, 5],
    [3, 7, 4, 2, 0, 6],
    [4, 0, 3, 5, 7, 1],
    [4, 0, 3, 5, 7, 2],
    [4, 0, 3, 6, 2, 5],
    [4, 0, 3, 6, 2, 7],
    [4, 0, 5, 3, 1, 6],
    [4, 0, 5, 3, 1, 7],
    [4, 0, 7, 3, 1, 6],
    [4, 0, 7, 3, 6, 2],
    [4, 0, 7, 5, 1, 6],
    [4, 0, 7, 5, 2, 6],
    [4, 1, 3, 0, 2, 7],
    [4, 1, 3, 5, 7, 2],
    [4, 1, 3, 6, 2, 7],
    [4, 1, 5, 0, 2, 6],
    [4, 1, 5, 0, 2, 7],
    [4, 1, 5, 0, 6, 3],
    [4, 1, 5, 2, 6, 3],
    [4, 1, 7, 0, 2, 6],
    [4, 1, 7, 0, 3, 6],
    [4, 1, 7, 0, 6, 3],
    [4, 1, 7, 2, 6, 3],
    [4, 1, 7, 5, 2, 0],
    [4, 1, 7, 5, 2, 6],
    [4, 1, 7, 5, 3, 0],
    [4, 1, 7, 5, 3, 6],
    [4, 2, 0, 3, 1, 7],
    [4, 2, 0, 5, 3, 1],
    [4, 2, 0, 5, 7, 1],
    [4, 2, 0, 6, 1, 5],
    [4, 2, 0, 6, 1, 7],
    [4, 2, 0, 6, 3, 1],
    [4, 2, 0, 6, 3, 5],
    [4, 2, 0, 6, 3, 7],
    [4, 2, 5, 3, 1, 7],
    [4, 2, 5, 3, 6, 0],
    [4, 2, 7, 3, 6, 0],
    [4, 2, 7, 5, 3, 0],
    [4, 2, 7, 5, 3, 1],
    [4, 6, 0, 2, 5, 1],
    [4, 6, 0, 2, 5, 7],
    [4, 6, 0, 2, 7, 1],
    [4, 6, 0, 2, 7, 5],
    [4, 6, 0, 3, 1, 7],
    [4, 6, 0, 3, 5, 7],
    [4, 6, 0, 5, 7, 1],
    [4, 6, 1, 3, 5, 0],
    [4, 6, 1, 3, 5, 7],
    [4, 6, 1, 3, 7, 0],
    [4, 6, 1, 5, 2, 0],
    [4, 6, 1, 5, 7, 0],
    [4, 6, 3, 0, 2, 5],
    [4, 6, 3, 0, 2, 7],
    [4, 6, 3, 0, 7, 1],
    [4, 6, 3, 0, 7, 5],
    [4, 6, 3, 5, 7, 1],
    [4, 7, 0, 2, 5, 1],
    [4, 7, 0, 2, 6, 1],
    [4, 7, 0, 3, 1, 6],
    [4, 7, 0, 3, 5, 2],
    [4, 7, 0, 3, 6, 2],
    [4, 7, 0, 6, 1, 5],
    [4, 7, 0, 6, 3, 1],
    [4, 7, 0, 6, 3, 5],
    [4, 7, 1, 3, 5, 0],
    [4, 7, 1, 3, 5, 2],
    [4, 7, 1, 3, 6, 0],
    [4, 7, 1, 3, 6, 2],
    [4, 7, 1, 6, 2, 0],
    [4, 7, 1, 6, 2, 5],
    [4, 7, 3, 0, 2, 5],
    [4, 7, 3, 0, 6, 1],
    [4, 7, 3, 6, 2, 5],
    [4, 7, 5, 0, 2, 6],
    [4, 7, 5, 0, 6, 1],
    [4, 7, 5, 2, 6, 1],
    [4, 7, 5, 3, 1, 6],
    [4, 7, 5, 3, 6, 0],
    [5, 0, 2, 4, 6, 1],
    [5, 0, 2, 4, 6, 3],
    [5, 0, 2, 4, 7, 1],
    [5, 0, 2, 4, 7, 3],
    [5, 0, 4, 1, 7, 2],
    [5, 0, 6, 1, 7, 2],
    [5, 0, 6, 3, 7, 2],
    [5, 0, 6, 4, 2, 7],
    [5, 0, 6, 4, 7, 1],
    [5, 1, 4, 0, 3, 6],
    [5, 1, 4, 0, 7, 3],
    [5, 1, 4, 6, 0, 2],
    [5, 1, 4, 6, 0, 3],
    [5, 1, 4, 7, 0, 2],
    [5, 1, 4, 7, 0, 3],
    [5, 1, 4, 7, 0, 6],
    [5, 1, 4, 7, 3, 6],
    [5, 1, 6, 0, 2, 4],
    [5, 1, 6, 0, 2, 7],
    [5, 1, 6, 0, 3, 7],
    [5, 1, 6, 0, 7, 4],
    [5, 1, 6, 4, 0, 7],
    [5, 1, 6, 4, 2, 7],
    [5, 2, 0, 3, 6, 4],
    [5, 2, 0, 3, 7, 4],
    [5, 2, 0, 6, 3, 1],
    [5, 2, 0, 6, 3, 7],
    [5, 2, 0, 6, 4, 1],
    [5, 2, 0, 6, 4, 7],
    [5, 2, 0, 7, 3, 1],
    [5, 2, 0, 7, 4, 1],
    [5, 2, 4, 6, 0, 3],
    [5, 2, 4, 7, 0, 3],
    [5, 2, 6, 1, 3, 7],
    [5, 2, 6, 1, 7, 4],
    [5, 2, 6, 3, 0, 4],
    [5, 2, 6, 3, 0, 7],
    [5, 2, 6, 3, 7, 4],
    [5, 3, 0, 4, 7, 1],
    [5, 3, 0, 6, 4, 1],
    [5, 3, 0, 6, 4, 2],
    [5, 3, 0, 7, 4, 1],
    [5, 3, 0, 7, 4, 2],
    [5, 3, 0, 7, 4, 6],
    [5, 3, 1, 6, 4, 2],
    [5, 3, 1, 7, 2, 6],
    [5, 3, 1, 7, 4, 2],
    [5, 3, 1, 7, 4, 6],
    [5, 3, 6, 0, 2, 4],
    [5, 3, 6, 0, 7, 1],
    [5, 3, 6, 0, 7, 4],
    [5, 3, 6, 4, 7, 1],
    [5, 7, 0, 3, 6, 2],
    [5, 7, 0, 3, 6, 4],
    [5, 7, 0, 4, 6, 1],
    [5, 7, 0, 6, 3, 1],
    [5, 7, 1, 3, 0, 2],
    [5, 7, 1, 3, 0, 6],
    [5, 7, 1, 3, 6, 2],
    [5, 7, 1, 6, 0, 2],
    [5, 7, 2, 0, 3, 1],
    [5, 7, 2, 0, 3, 6],
    [5, 7, 2, 0, 6, 1],
    [5, 7, 2, 0, 6, 4],
    [5, 7, 2, 4, 6, 1],
    [5, 7, 2, 6, 3, 1],
    [5, 7, 4, 0, 3, 6],
    [5, 7, 4, 1, 3, 6],
    [5, 7, 4, 6, 0, 2],
    [6, 0, 2, 4, 1, 3],
    [6, 0, 2, 4, 1, 7],
    [6, 0, 2, 4, 7, 3],
    [6, 0, 2, 7, 1, 3],
    [6, 0, 2, 7, 5, 3],
    [6, 0, 3, 1, 4, 2],
    [6, 0, 3, 1, 4, 7],
    [6, 0, 3, 1, 7, 2],
    [6, 0, 3, 1, 7, 5],
    [6, 0, 3, 5, 7, 2],
    [6, 0, 3, 7, 4, 2],
    [6, 0, 5, 1, 4, 7],
    [6, 0, 5, 7, 1, 3],
    [6, 0, 7, 1, 4, 2],
    [6, 0, 7, 4, 1, 3],
    [6, 0, 7, 4, 1, 5],
    [6, 1, 3, 0, 7, 4],
    [6, 1, 3, 5, 0, 2],
    [6, 1, 3, 5, 0, 4],
    [6, 1, 3, 5, 7, 2],
    [6, 1, 3, 5, 7, 4],
    [6, 1, 3, 7, 0, 2],
    [6, 1, 3, 7, 0, 4],
    [6, 1, 5, 2, 0, 3],
    [6, 1, 5, 2, 0, 7],
    [6, 1, 5, 7, 0, 3],
    [6, 1, 5, 7, 0, 4],
    [6, 1, 7, 2, 0, 3],
    [6, 1, 7, 4, 0, 3],
    [6, 1, 7, 5, 0, 2],
    [6, 1, 7, 5, 3, 0],
    [6, 2, 0, 5, 1, 4],
    [6, 2, 0, 5, 7, 4],
    [6, 2, 0, 7, 1, 4],
    [6, 2, 5, 1, 4, 0],
    [6, 2, 5, 1, 4, 7],
    [6, 2, 5, 7, 0, 3],
    [6, 2, 5, 7, 0, 4],
    [6, 2, 5, 7, 1, 3],
    [6, 2, 5, 7, 1, 4],
    [6, 2, 5, 7, 4, 0],
    [6, 2, 7, 1, 3, 0],
    [6, 2, 7, 1, 3, 5],
    [6, 2, 7, 1, 4, 0],
    [6, 2, 7, 5, 3, 0],
    [6, 3, 0, 2, 7, 5],
    [6, 3, 0, 4, 1, 5],
    [6, 3, 0, 4, 7, 5],
    [6, 3, 0, 7, 1, 4],
    [6, 3, 0, 7, 4, 2],
    [6, 3, 0, 7, 5, 2],
    [6, 3, 1, 4, 7, 0],
    [6, 3, 1, 4, 7, 5],
    [6, 3, 1, 7, 4, 0],
    [6, 3, 1, 7, 4, 2],
    [6, 3, 1, 7, 5, 0],
    [6, 3, 1, 7, 5, 2],
    [6, 3, 5, 7, 1, 4],
    [6, 3, 5, 7, 4, 0],
    [6, 3, 7, 4, 1, 5],
    [6, 4, 0, 7, 5, 2],
    [6, 4, 1, 5, 0, 2],
    [6, 4, 1, 7, 0, 2],
    [6, 4, 1, 7, 0, 3],
    [6, 4, 1, 7, 5, 2],
    [6, 4, 1, 7, 5, 3],
    [6, 4, 2, 0, 3, 7],
    [6, 4, 2, 0, 5, 3],
    [6, 4, 2, 0, 5, 7],
    [6, 4, 2, 7, 5, 3],
    [6, 4, 7, 0, 3, 5],
    [6, 4, 7, 1, 3, 5],
    [6, 4, 7, 5, 0, 2],
    [7, 0, 2, 5, 1, 6],
    [7, 0, 2, 6, 1, 3],
    [7, 0, 3, 6, 2, 5],
    [7, 0, 3, 6, 4, 1],
    [7, 0, 4, 6, 1, 3],
    [7, 0, 4, 6, 1, 5],
    [7, 1, 3, 0, 2, 4],
    [7, 1, 3, 0, 6, 4],
    [7, 1, 3, 5, 0, 4],
    [7, 1, 3, 5, 2, 4],
    [7, 1, 4, 0, 5, 3],
    [7, 1, 4, 2, 0, 3],
    [7, 1, 4, 2, 0, 6],
    [7, 1, 4, 2, 5, 3],
    [7, 1, 4, 6, 0, 3],
    [7, 1, 6, 0, 2, 4],
    [7, 2, 0, 3, 1, 4],
    [7, 2, 0, 3, 6, 4],
    [7, 2, 0, 5, 1, 4],
    [7, 2, 0, 6, 1, 5],
    [7, 2, 0, 6, 4, 1],
    [7, 2, 4, 6, 0, 3],
    [7, 2, 4, 6, 0, 5],
    [7, 2, 4, 6, 1, 3],
    [7, 2, 4, 6, 1, 5],
    [7, 2, 6, 3, 0, 4],
    [7, 2, 6, 3, 1, 4],
    [7, 3, 0, 2, 4, 1],
    [7, 3, 0, 2, 4, 6],
    [7, 3, 0, 2, 5, 1],
    [7, 3, 0, 6, 1, 5],
    [7, 3, 0, 6, 4, 1],
    [7, 3, 1, 6, 2, 0],
    [7, 3, 1, 6, 2, 5],
    [7, 3, 1, 6, 4, 0],
    [7, 3, 6, 0, 2, 4],
    [7, 3, 6, 0, 2, 5],
    [7, 3, 6, 0, 5, 1],
    [7, 3, 6, 2, 5, 1],
    [7, 4, 1, 3, 0, 6],
    [7, 4, 1, 5, 0, 6],
    [7, 4, 1, 5, 2, 6],
    [7, 4, 2, 0, 5, 1],
    [7, 4, 2, 0, 5, 3],
    [7, 4, 2, 0, 6, 1],
    [7, 4, 2, 0, 6, 3],
    [7, 4, 6, 0, 2, 5],
    [7, 4, 6, 0, 5, 1],
    [7, 5, 0, 2, 4, 6],
    [7, 5, 1, 6, 0, 3],
    [7, 5, 1, 6, 4, 0],
    [7, 5, 2, 0, 6, 3],
    [7, 5, 2, 0, 6, 4],
    [7, 5, 2, 6, 1, 3],
    [7, 5, 3, 0, 6, 4],
    [7, 5, 3, 1, 6, 4]]

set_option maxRecDepth 16000 in
set_option maxHeartbeats 1000000 in
/-- The boards of `searchLevel 7`, listed literally so each level of
the search can be checked by a small independent computation. -/
def queensLevel7 : List (List Nat) :=
  [[0, 2, 4, 6, 1, 3, 5],
    [0, 2, 4, 7, 1, 3, 5],
    [0, 2, 7, 5, 3, 1, 4],
    [0, 3, 5, 7, 1, 4, 2],
    [0, 3, 5, 7, 1, 6, 2],
    [0, 3, 6, 2, 5, 1, 4],
    [0, 3, 6, 2, 7, 1, 4],
    [0, 4, 1, 5, 2, 6, 3],
    [0, 4, 1, 7, 2, 6, 3],
    [0, 4, 7, 1, 3, 6, 2],
    [0, 4, 7, 1, 6, 2, 5],
    [0, 4, 7, 5, 2, 6, 1],
    [0, 5, 3, 1, 6, 4, 2],
    [0, 5, 3, 1, 7, 4, 2],
    [0, 5, 7, 1, 3, 6, 2],
    [0, 5, 7, 2, 6, 3, 1],
    [0, 6, 3, 1, 7, 4, 2],
    [0, 6, 3, 5, 7, 1, 4],
    [0, 6, 4, 7, 1, 3, 5],
    [0, 7, 3, 1, 6, 2, 5],
    [0, 7, 5, 2, 6, 1, 3],
    [1, 3, 0, 6, 4, 2, 5],
    [1, 3, 0, 7, 4, 2, 5],
    [1, 3, 5, 0, 2, 4, 6],
    [1, 3, 5, 7, 2, 0, 6],
    [1, 3, 5, 7, 2, 4, 6],
    [1, 3, 6, 2, 7, 5, 0],
    [1, 4, 0, 3, 6, 2, 5],
    [1, 4, 2, 0, 6, 3, 5],
    [1, 4, 6, 0, 2, 7, 5],
    [1, 4, 6, 3, 0, 2, 5],
    [1, 4, 6, 3, 0, 7, 5],
    [1, 4, 7, 0, 3, 5, 2],
    [1, 4, 7, 0, 6, 3, 5],
    [1, 4, 7, 3, 0, 2, 5],
    [1, 4, 7, 3, 6, 2, 5],
    [1, 4, 7, 5, 0, 2, 6],
    [1, 5, 0, 2, 4, 7, 3],
    [1, 5, 0, 6, 3, 7, 2],
    [1, 5, 2, 0, 3, 7, 4],
    [1, 5, 2, 6, 3, 0, 4],
    [1, 5, 2, 6, 3, 7, 4],
    [1, 5, 7, 2, 0, 3, 6],
    [1, 6, 0, 2, 4, 7, 3],
    [1, 6, 0, 2, 7, 5, 3],
    [1, 6, 0, 3, 7, 4, 2],
    [1, 6, 2, 5, 7, 0, 3],
    [1, 6, 2, 5, 7, 0, 4],
    [1, 6, 2, 5, 7, 4, 0],
    [1, 6, 4, 0, 7, 5, 2],
    [1, 6, 4, 2, 0, 5, 3],
    [1, 6, 4, 2, 7, 5, 3],
    [1, 6, 4, 7, 0, 3, 5],
    [1, 7, 0, 3, 6, 2, 5],
    [1, 7, 2, 6, 3, 0, 4],
    [1, 7, 4, 2, 0, 5, 3],
    [1, 7, 4, 6, 0, 2, 5],
    [1, 7, 5, 0, 2, 4, 6],
    [2, 0, 5, 1, 4, 6, 3],
    [2, 0, 5, 3, 1, 6, 4],
    [2, 0, 5, 7, 1, 3, 6],
    [2, 0, 5, 7, 4, 1, 3],
    [2, 0, 5, 7, 4, 6, 3],
    [2, 0, 6, 1, 7, 5, 3],
    [2, 0, 6, 4, 7, 1, 3],
    [2, 0, 6, 4, 7, 5, 3],
    [2, 0, 7, 3, 1, 6, 4],
    [2, 0, 7, 4, 1, 3, 6],
    [2, 4, 1, 7, 0, 3, 6],
    [2, 4, 1, 7, 0, 6, 3],
    [2, 4, 1, 7, 5, 3, 0],
    [2, 4, 1, 7, 5, 3, 6],
    [2, 4, 6, 0, 3, 1, 7],
    [2, 4, 6, 0, 3, 5, 7],
    [2, 4, 6, 1, 3, 5, 0],
    [2, 4, 6, 1, 3, 5, 7],
    [2, 4, 7, 0, 3, 1, 6],
    [2, 4, 7, 1, 3, 5, 0],
    [2, 4, 7, 1, 3, 6, 0],
    [2, 4, 7, 3, 0, 6, 1],
    [2, 5, 1, 4, 0, 3, 6],
    [2, 5, 1, 4, 7, 0, 3],
    [2, 5, 1, 4, 7, 0, 6],
    [2, 5, 1, 4, 7, 3, 6],
    [2, 5, 1, 6, 0, 3, 7],
    [2, 5, 1, 6, 4, 0, 7],
    [2, 5, 3, 0, 7, 4, 1],
    [2, 5, 3, 0, 7, 4, 6],
    [2, 5, 3, 1, 7, 4, 6],
    [2, 5, 7, 0, 3, 6, 4],
    [2, 5, 7, 0, 4, 6, 1],
    [2, 5, 7, 1, 3, 0, 6],
    [2, 5, 7, 4, 0, 3, 6],
    [2, 5, 7, 4, 1, 3, 6],
    [2, 6, 1, 3, 5, 0, 4],
    [2, 6, 1, 3, 7, 0, 4],
    [2, 6, 1, 7, 4, 0, 3],
    [2, 6, 1, 7, 5, 3, 0],
    [2, 6, 3, 0, 4, 1, 5],
    [2, 6, 3, 0, 7, 1, 4],
    [2, 6, 3, 1, 7, 4, 0],
    [2, 6, 3, 1, 7, 5, 0],
    [2, 6, 3, 7, 4, 1, 5],
    [2, 7, 1, 3, 0, 6, 4],
    [2, 7, 1, 3, 5, 0, 4],
    [2, 7, 1, 4, 0, 5, 3],
    [2, 7, 3, 6, 0, 5, 1],
    [2, 7, 5, 3, 0, 6, 4],
    [2, 7, 5, 3, 1, 6, 4],
    [3, 0, 2, 5, 1, 6, 4],
    [3, 0, 4, 1, 5, 2, 6],
    [3, 0, 4, 7, 1, 6, 2],
    [3, 0, 4, 7, 5, 2, 6],
    [3, 0, 7, 4, 1, 5, 2],
    [3, 0, 7, 5, 1, 6, 4],
    [3, 0, 7, 5, 2, 6, 1],
    [3, 1, 4, 7, 0, 2, 5],
    [3, 1, 4, 7, 5, 0, 2],
    [3, 1, 6, 2, 0, 7, 4],
    [3, 1, 6, 2, 5, 7, 0],
    [3, 1, 6, 2, 5, 7, 4],
    [3, 1, 6, 4, 0, 7, 5],
    [3, 1, 6, 4, 2, 0, 5],
    [3, 1, 6, 4, 2, 7, 5],
    [3, 1, 7, 2, 0, 6, 4],
    [3, 1, 7, 4, 2, 0, 5],
    [3, 1, 7, 4, 6, 0, 2],
    [3, 1, 7, 4, 6, 0, 5],
    [3, 1, 7, 5, 0, 2, 4],
    [3, 1, 7, 5, 0, 6, 4],
    [3, 5, 0, 2, 4, 6, 1],
    [3, 5, 0, 2, 4, 7, 1],
    [3, 5, 0, 4, 1, 7, 2],
    [3, 5, 7, 1, 6, 0, 2],
    [3, 5, 7, 2, 0, 6, 1],
    [3, 5, 7, 2, 0, 6, 4],
    [3, 5, 7, 2, 4, 6, 1],
    [3, 5, 7, 4, 6, 0, 2],
    [3, 6, 0, 2, 4, 1, 7],
    [3, 6, 0, 5, 1, 4, 7],
    [3, 6, 0, 7, 1, 4, 2],
    [3, 6, 0, 7, 4, 1, 5],
    [3, 6, 2, 5, 1, 4, 0],
    [3, 6, 2, 5, 1, 4, 7],
    [3, 6, 2, 7, 1, 4, 0],
    [3, 6, 4, 1, 5, 0, 2],
    [3, 6, 4, 2, 0, 5, 7],
    [3, 6, 4, 7, 5, 0, 2],
    [3, 7, 0, 2, 5, 1, 6],
    [3, 7, 0, 4, 6, 1, 5],
    [3, 7, 2, 4, 6, 0, 5],
    [3, 7, 2, 4, 6, 1, 5],
    [3, 7, 4, 1, 5, 0, 6],
    [3, 7, 4, 1, 5, 2, 6],
    [3, 7, 4, 2, 0, 5, 1],
    [3, 7, 4, 2, 0, 6, 1],
    [4, 0, 3, 5, 7, 1, 6],
    [4, 0, 3, 5, 7, 2, 6],
    [4, 0, 3, 6, 2, 5, 1],
    [4, 0, 3, 6, 2, 7, 1],
    [4, 0, 5, 3, 1, 6, 2],
    [4, 0, 5, 3, 1, 7, 2],
    [4, 0, 7, 3, 1, 6, 2],
    [4, 0, 7, 5, 2, 6, 1],
    [4, 1, 3, 0, 2, 7, 5],
    [4, 1, 3, 5, 7, 2, 0],
    [4, 1, 3, 6, 2, 7, 5],
    [4, 1, 5, 0, 6, 3, 7],
    [4, 1, 5, 2, 6, 3, 0],
    [4, 1, 5, 2, 6, 3, 7],
    [4, 1, 7, 0, 3, 6, 2],
    [4, 1, 7, 0, 6, 3, 5],
    [4, 1, 7, 2, 6, 3, 0],
    [4, 1, 7, 5, 3, 6, 0],
    [4, 2, 0, 3, 1, 7, 5],
    [4, 2, 0, 5, 3, 1, 6],
    [4, 2, 0, 5, 7, 1, 3],
    [4, 2, 0, 5, 7, 1, 6],
    [4, 2, 0, 6, 1, 7, 5],
    [4, 2, 7, 3, 6, 0, 5],
    [4, 2, 7, 5, 3, 0, 6],
    [4, 2, 7, 5, 3, 1, 6],
    [4, 6, 0, 2, 7, 1, 3],
    [4, 6, 0, 2, 7, 5, 3],
    [4, 6, 0, 3, 1, 7, 2],
    [4, 6, 0, 3, 1, 7, 5],
    [4, 6, 0, 3, 5, 7, 2],
    [4, 6, 0, 5, 7, 1, 3],
    [4, 6, 1, 3, 5, 0, 2],
    [4, 6, 1, 3, 5, 7, 2],
    [4, 6, 1, 3, 7, 0, 2],
    [4, 6, 1, 5, 2, 0, 3],
    [4, 6, 1, 5, 2, 0, 7],
    [4, 6, 1, 5, 7, 0, 3],
    [4, 6, 3, 0, 2, 7, 5],
    [4, 6, 3, 0, 7, 5, 2],
    [4, 7, 0, 2, 5, 1, 6],
    [4, 7, 0, 2, 6, 1, 3],
    [4, 7, 0, 3, 6, 2, 5],
    [4, 7, 3, 0, 2, 5, 1],
    [4, 7, 3, 0, 6, 1, 5],
    [4, 7, 3, 6, 2, 5, 1],
    [4, 7, 5, 2, 6, 1, 3],
    [5, 0, 2, 4, 6, 1, 3],
    [5, 0, 2, 4, 7, 1, 3],
    [5, 0, 4, 1, 7, 2, 6],
    [5, 0, 6, 3, 7, 2, 4],
    [5, 0, 6, 4, 2, 7, 3],
    [5, 0, 6, 4, 7, 1, 3],
    [5, 1, 4, 0, 3, 6, 2],
    [5, 1, 4, 6, 0, 2, 7],
    [5, 1, 4, 6, 0, 3, 7],
    [5, 1, 4, 7, 0, 6, 3],
    [5, 1, 4, 7, 3, 6, 2],
    [5, 1, 6, 0, 2, 4, 7],
    [5, 1, 6, 0, 3, 7, 4],
    [5, 1, 6, 4, 0, 7, 3],
    [5, 1, 6, 4, 2, 7, 3],
    [5, 2, 0, 3, 6, 4, 1],
    [5, 2, 0, 3, 7, 4, 1],
    [5, 2, 0, 6, 4, 7, 1],
    [5, 2, 0, 7, 3, 1, 6],
    [5, 2, 0, 7, 4, 1, 3],
    [5, 2, 4, 6, 0, 3, 1],
    [5, 2, 4, 7, 0, 3, 1],
    [5, 2, 4, 7, 0, 3, 6],
    [5, 2, 6, 1, 3, 7, 0],
    [5, 2, 6, 1, 7, 4, 0],
    [5, 2, 6, 3, 0, 4, 1],
    [5, 2, 6, 3, 0, 7, 1],
    [5, 2, 6, 3, 0, 7, 4],
    [5, 2, 6, 3, 7, 4, 1],
    [5, 3, 0, 4, 7, 1, 6],
    [5, 3, 0, 6, 4, 1, 7],
    [5, 3, 0, 6, 4, 2, 7],
    [5, 3, 0, 7, 4, 6, 1],
    [5, 3, 1, 6, 4, 2, 0],
    [5, 3, 1, 6, 4, 2, 7],
    [5, 3, 1, 7, 4, 2, 0],
    [5, 3, 1, 7, 4, 6, 0],
    [5, 3, 6, 0, 2, 4, 1],
    [5, 3, 6, 0, 2, 4, 7],
    [5, 3, 6, 0, 7, 1, 4],
    [5, 3, 6, 0, 7, 4, 1],
    [5, 7, 0, 3, 6, 4, 1],
    [5, 7, 0, 4, 6, 1, 3],
    [5, 7, 1, 3, 0, 2, 4],
    [5, 7, 1, 3, 0, 6, 4],
    [5, 7, 1, 6, 0, 2, 4],
    [5, 7, 2, 0, 3, 1, 4],
    [5, 7, 2, 0, 3, 6, 4],
    [5, 7, 2, 0, 6, 4, 1],
    [5, 7, 2, 4, 6, 1, 3],
    [5, 7, 2, 6, 3, 1, 4],
    [6, 0, 2, 7, 5, 3, 1],
    [6, 0, 3, 1, 7, 5, 2],
    [6, 0, 3, 5, 7, 2, 4],
    [6, 0, 5, 1, 4, 7, 3],
    [6, 0, 7, 4, 1, 5, 2],
    [6, 1, 3, 0, 7, 4, 2],
    [6, 1, 3, 5, 0, 2, 4],
    [6, 1, 3, 5, 7, 2, 4],
    [6, 1, 3, 7, 0, 2, 5],
    [6, 1, 5, 2, 0, 3, 7],
    [6, 1, 5, 2, 0, 7, 3],
    [6, 1, 5, 2, 0, 7, 4],
    [6, 1, 7, 4, 0, 3, 5],
    [6, 1, 7, 5, 0, 2, 4],
    [6, 1, 7, 5, 3, 0, 4],
    [6, 2, 0, 5, 7, 4, 1],
    [6, 2, 5, 1, 4, 0, 3],
    [6, 2, 5, 1, 4, 7, 3],
    [6, 2, 5, 7, 4, 0, 3],
    [6, 2, 7, 1, 4, 0, 5],
    [6, 2, 7, 5, 3, 0, 4],
    [6, 3, 0, 2, 7, 5, 1],
    [6, 3, 0, 4, 1, 5, 2],
    [6, 3, 0, 4, 7, 5, 2],
    [6, 3, 0, 7, 1, 4, 2],
    [6, 3, 0, 7, 4, 2, 5],
    [6, 3, 1, 4, 7, 0, 2],
    [6, 3, 1, 4, 7, 5, 2],
    [6, 3, 1, 7, 5, 0, 2],
    [6, 3, 5, 7, 1, 4, 2],
    [6, 3, 7, 4, 1, 5, 2],
    [6, 4, 1, 5, 0, 2, 7],
    [6, 4, 2, 0, 5, 3, 1],
    [6, 4, 2, 0, 5, 7, 1],
    [6, 4, 2, 7, 5, 3, 1],
    [6, 4, 7, 0, 3, 5, 2],
    [6, 4, 7, 1, 3, 5, 2],
    [7, 0, 2, 5, 1, 6, 4],
    [7, 0, 4, 6, 1, 5, 2],
    [7, 1, 3, 0, 6, 4, 2],
    [7, 1, 4, 2, 0, 6, 3],
    [7, 1, 4, 6, 0, 3, 5],
    [7, 2, 0, 5, 1, 4, 6],
    [7, 2, 0, 6, 4, 1, 5],
    [7, 2, 4, 6, 0, 3, 5],
    [7, 2, 4, 6, 1, 3, 5],
    [7, 3, 0, 2, 5, 1, 6],
    [7, 3, 0, 6, 1, 5, 2],
    [7, 3, 0, 6, 4, 1, 5],
    [7, 3, 6, 0, 5, 1, 4],
    [7, 3, 6, 2, 5, 1, 4],
    [7, 4, 1, 5, 0, 6, 3],
    [7, 4, 1, 5, 2, 6, 3],
    [7, 4, 2, 0, 6, 1, 5],
    [7, 4, 2, 0, 6, 3, 5],
    [7, 5, 0, 2, 4, 6, 3],
    [7, 5, 3, 0, 6, 4, 2],
    [7, 5, 3, 1, 6, 4, 2]]

set_option maxRecDepth 16000 in
set_option maxHeartbeats 1000000 in
/-- The boards of `searchLevel 8`, listed literally so each level of
the search can be checked by a small independent computation. -/
def queensLevel8 : List (List Nat) :=
  [[0, 4, 7, 5, 2, 6, 1, 3],
    [0, 5, 7, 2, 6, 3, 1, 4],
    [0, 6, 3, 5, 7, 1, 4, 2],
    [0, 6, 4, 7, 1, 3, 5, 2],
    [1, 3, 5, 7, 2, 0, 6, 4],
    [1, 4, 6, 0, 2, 7, 5, 3],
    [1, 4, 6, 3, 0, 7, 5, 2],
    [1, 5, 0, 6, 3, 7, 2, 4],
    [1, 5, 7, 2, 0, 3, 6, 4],
    [1, 6, 2, 5, 7, 4, 0, 3],
    [1, 6, 4, 7, 0, 3, 5, 2],
    [1, 7, 5, 0, 2, 4, 6, 3],
    [2, 0, 6, 4, 7, 1, 3, 5],
    [2, 4, 1, 7, 0, 6, 3, 5],
    [2, 4, 1, 7, 5, 3, 6, 0],
    [2, 4, 6, 0, 3, 1, 7, 5],
    [2, 4, 7, 3, 0, 6, 1, 5],
    [2, 5, 1, 4, 7, 0, 6, 3],
    [2, 5, 1, 6, 0, 3, 7, 4],
    [2, 5, 1, 6, 4, 0, 7, 3],
    [2, 5, 3, 0, 7, 4, 6, 1],
    [2, 5, 3, 1, 7, 4, 6, 0],
    [2, 5, 7, 0, 3, 6, 4, 1],
    [2, 5, 7, 0, 4, 6, 1, 3],
    [2, 5, 7, 1, 3, 0, 6, 4],
    [2, 6, 1, 7, 4, 0, 3, 5],
    [2, 6, 1, 7, 5, 3, 0, 4],
    [2, 7, 3, 6, 0, 5, 1, 4],
    [3, 0, 4, 7, 1, 6, 2, 5],
    [3, 0, 4, 7, 5, 2, 6, 1],
    [3, 1, 4, 7, 5, 0, 2, 6],
    [3, 1, 6, 2, 5, 7, 0, 4],
    [3, 1, 6, 2, 5, 7, 4, 0],
    [3, 1, 6, 4, 0, 7, 5, 2],
    [3, 1, 7, 4, 6, 0, 2, 5],
    [3, 1, 7, 5, 0, 2, 4, 6],
    [3, 5, 0, 4, 1, 7, 2, 6],
    [3, 5, 7, 1, 6, 0, 2, 4],
    [3, 5, 7, 2, 0, 6, 4, 1],
    [3, 6, 0, 7, 4, 1, 5, 2],
    [3, 6, 2, 7, 1, 4, 0, 5],
    [3, 6, 4, 1, 5, 0, 2, 7],
    [3, 6, 4, 2, 0, 5, 7, 1],
    [3, 7, 0, 2, 5, 1, 6, 4],
    [3, 7, 0, 4, 6, 1, 5, 2],
    [3, 7, 4, 2, 0, 6, 1, 5],
    [4, 0, 3, 5, 7, 1, 6, 2],
    [4, 0, 7, 3, 1, 6, 2, 5],
    [4, 0, 7, 5, 2, 6, 1, 3],
    [4, 1, 3, 5, 7, 2, 0, 6],
    [4, 1, 3, 6, 2, 7, 5, 0],
    [4, 1, 5, 0, 6, 3, 7, 2],
    [4, 1, 7, 0, 3, 6, 2, 5],
    [4, 2, 0, 5, 7, 1, 3, 6],
    [4, 2, 0, 6, 1, 7, 5, 3],
    [4, 2, 7, 3, 6, 0, 5, 1],
    [4, 6, 0, 2, 7, 5, 3, 1],
    [4, 6, 0, 3, 1, 7, 5, 2],
    [4, 6, 1, 3, 7, 0, 2, 5],
    [4, 6, 1, 5, 2, 0, 3, 7],
    [4, 6, 1, 5, 2, 0, 7, 3],
    [4, 6, 3, 0, 2, 7, 5, 1],
    [4, 7, 3, 0, 2, 5, 1, 6],
    [4, 7, 3, 0, 6, 1, 5, 2],
    [5, 0, 4, 1, 7, 2, 6, 3],
    [5, 1, 6, 0, 2, 4, 7, 3],
    [5, 1, 6, 0, 3, 7, 4, 2],
    [5, 2, 0, 6, 4, 7, 1, 3],
    [5, 2, 0, 7, 3, 1, 6, 4],
    [5, 2, 0, 7, 4, 1, 3, 6],
    [5, 2, 4, 6, 0, 3, 1, 7],
    [5, 2, 4, 7, 0, 3, 1, 6],
    [5, 2, 6, 1, 3, 7, 0, 4],
    [5, 2, 6, 1, 7, 4, 0, 3],
    [5, 2, 6, 3, 0, 7, 1, 4],
    [5, 3, 0, 4, 7, 1, 6, 2],
    [5, 3, 1, 7, 4, 6, 0, 2],
    [5, 3, 6, 0, 2, 4, 1, 7],
    [5, 3, 6, 0, 7, 1, 4, 2],
    [5, 7, 1, 3, 0, 6, 4, 2],
    [6, 0, 2, 7, 5, 3, 1, 4],
    [6, 1, 3, 0, 7, 4, 2, 5],
    [6, 1, 5, 2, 0, 3, 7, 4],
    [6, 2, 0, 5, 7, 4, 1, 3],
    [6, 2, 7, 1, 4, 0, 5, 3],
    [6, 3, 1, 4, 7, 0, 2, 5],
    [6, 3, 1, 7, 5, 0, 2, 4],
    [6, 4, 2, 0, 5, 7, 1, 3],
    [7, 1, 3, 0, 6, 4, 2, 5],
    [7, 1, 4, 2, 0, 6, 3, 5],
    [7, 2, 0, 5, 1, 4, 6, 3],
    [7, 3, 0, 2, 5, 1, 6, 4]]

/-- A board layout the program can actually hold: `BOARD_SIZE` entries,
each in `[0, BOARD_SIZE)`. -/
def validPos (ps : List Nat) : Prop :=
  ps.length = BOARD_SIZE ∧ ∀ y ∈ ps, y < BOARD_SIZE

/-- The data-model invariant of a live `Individual`: a valid layout whose
cached conflict count agrees with `fitness`. -/
def validInd (ind : Individual) : Prop :=
  validPos ind.positions ∧ ind.n_conflicts = fitness ind.positions

/-- Every member of the population satisfies the `Individual` invariant. -/
def popValid (pop : List Individual) : Prop := ∀ ind ∈ pop, validInd ind

/-- Every recorded solution is a valid zero-conflict layout. -/
def solsValid (s : Finset (List Nat)) : Prop :=
  ∀ p ∈ s, validPos p ∧ fitness p = 0

instance (ps : List Nat) : Decidable (validPos ps) := by
  unfold validPos; infer_instance

instance (ind : Individual) : Decidable (validInd ind) := by
  unfold validInd; infer_instance

instance (pop : List Individual) : Decidable (popValid pop) := by
  unfold popValid; infer_instance

/-- The board with the roles of rows and columns swapped: entry `r` of
`invPerm p` is the column in which `p` puts its queen of row `r` (the
inverse permutation of `p`). -/
def invPerm (p : List Nat) : List Nat :=
  (List.range p.length).map (fun r => p.indexOf r)

/-- A fixed stream of generation draws used to instantiate driver
theorems on concrete runs. -/
def constDraws : GenDraws :=
  { r1 := 0, r2 := 0, r3 := 0, mcol := 0, mval := 0,
    samples := fun _ => List.range BOARD_SIZE }

/-- Concrete two-member population used to instantiate theorems about
`selection` and `mutateAt` on concrete inputs. -/
def c4pop : List Individual :=
  [mkIndividual (some [0, 1, 2, 3, 4, 5, 6, 7]) [],
    mkIndividual (some [3, 1, 4, 1, 5, 0, 2, 6]) []]

/-- Concrete three-member population (already rank-sorted) used to
instantiate selection theorems on concrete inputs. -/
def c6pop : List Individual :=
  [mkIndividual (some [0, 4, 7, 5, 2, 6, 1, 3]) [],
    mkIndividual (some [3, 1, 4, 1, 5, 0, 2, 6]) [],
    mkIndividual (some [0, 1, 2, 3, 4, 5, 6, 7]) []]

/-- The population after one concrete mutation of the first member of
`c4pop`. -/
def c2popAfter : List Individual := c4pop.set 0 (mutate (c4pop.getD 0 default) 0 5)

theorem natSum_eq_zero_iff (l : List Nat) : l.sum = 0 ↔ ∀ x ∈ l, x = 0 := by
  induction l with
  | nil => simp
  | cons a l ih => simp [Nat.add_eq_zero, ih]

theorem fitness_eq_zero_iff (ps : List Nat) :
    fitness ps = 0 ↔ ∀ i j, i < j → j < ps.length →
      has_conflict (i, ps.getD i 0) (j, ps.getD j 0) = false := by
  rw [fitness, natSum_eq_zero_iff]
  simp only [List.forall_mem_map, List.countP_eq_zero, List.forall_mem_enum, List.mem_range']
  constructor
  · intro h i j hij hj
    have hi : i < ps.length := Nat.lt_trans hij hj
    have := h i hi j ⟨j - (i + 1), by omega, by omega⟩
    simp only [Bool.not_eq_true] at this
    rwa [List.getD_eq_getElem ps 0 hi]
  · intro h i hi x2 hx2
    obtain ⟨k, hk, rfl⟩ := hx2
    have h2 := h i (i + 1 + k) (by omega) (by omega)
    rw [List.getD_eq_getElem ps 0 hi] at h2
    simpa using h2

theorem mem_searchLevel :
    ∀ ps : List Nat, (∀ y ∈ ps, y < BOARD_SIZE) → fitness ps = 0 →
      ps ∈ searchLevel ps.length := by
  intro ps
  induction ps using List.reverseRecOn with
  | nil => intro _ _; simp [searchLevel]
  | append_singleton l a ih =>
    intro h8 h0
    rw [fitness_eq_zero_iff] at h0
    have hkey : ∀ i j, i < j → j < l.length →
        has_conflict (i, l.getD i 0) (j, l.getD j 0) = false := by
      intro i j hij hj
      have h1 := h0 i j hij (by simp; omega)
      rwa [List.getD_append _ _ _ _ (by omega), List.getD_append _ _ _ _ hj] at h1
    have hl0 : fitness l = 0 := (fitness_eq_zero_iff l).mpr hkey
    have hl8 : ∀ y ∈ l, y < BOARD_SIZE := fun y hy => h8 y (by simp [hy])
    have hIH := ih hl8 hl0
    have hpo : placeOk l a = true := by
      simp only [placeOk, List.all_eq_true, List.forall_mem_enum]
      intro i hilt
      have h1 := h0 i l.length (by omega) (by simp)
      rw [List.getD_append _ _ _ _ hilt,
        List.getD_append_right _ _ _ _ (Nat.le_refl _)] at h1
      simp only [Nat.sub_self, List.getD_cons_zero] at h1
      rw [List.getD_eq_getElem _ _ hilt] at h1
      simp [h1]
    have hmem : (l ++ [a]) ∈ extendBoards l :=
      List.mem_map_of_mem _ (List.mem_filter.mpr
        ⟨List.mem_range.mpr (h8 a (by simp)), hpo⟩)
    have hlen : (l ++ [a]).length = l.length + 1 := by simp
    rw [hlen, searchLevel]
    exact List.mem_flatMap_of_mem hIH hmem

theorem crossoverAt_ne (pop : List Individual) {i j : Nat} (hij : i ≠ j)
    (hi : i < pop.length) (hj : j < pop.length) :
    crossoverAt pop i j =
      (pop.set i (crossover (pop.getD i default) (pop.getD j default)).1).set j
        (crossover (pop.getD i default) (pop.getD j default)).2 := by
  have hji := Ne.symm hij
  apply List.ext_getElem?
  intro k
  simp only [crossoverAt, crossover]
  by_cases hk1 : k = j
  · subst hk1
    simp [List.getElem?_set_ne hij, List.getElem?_set_self, hi, hj, hji]
  · by_cases hk2 : k = i
    · subst hk2
      simp [List.getElem?_set_ne hij, List.getElem?_set_ne hji,
        List.getElem?_set_self, hi, hj, hk1]
    · have hk1' := Ne.symm hk1
      have hk2' := Ne.symm hk2
      simp [List.getElem?_set_ne hk1', List.getElem?_set_ne hk2', hij, hji]

theorem crossoverAt_self (pop : List Individual) {i : Nat} (hi : i < pop.length) :
    crossoverAt pop i i = pop.set i (crossoverSelf (pop.getD i default)) := by
  apply List.ext_getElem?
  intro k
  simp only [crossoverAt, crossoverSelf]
  by_cases hk : k = i
  · subst hk
    simp [List.getElem?_set_self, hi]
  · have hk' := Ne.symm hk
    simp [List.getElem?_set_ne hk', hk]

set_option maxRecDepth 16000 in
set_option maxHeartbeats 1000000 in
theorem searchLevel_one_eq : searchLevel 1 = queensLevel1 := by
  have h : searchLevel 1 = (searchLevel 0).flatMap extendBoards := rfl
  rw [h]
  rfl

set_option maxRecDepth 16000 in
set_option maxHeartbeats 1000000 in
theorem searchLevel_two_eq : searchLevel 2 = queensLevel2 := by
  have h : searchLevel 2 = (searchLevel 1).flatMap extendBoards := rfl
  rw [h, searchLevel_one_eq]
  rfl

set_option maxRecDepth 16000 in
set_option maxHeartbeats 1000000 in
theorem searchLevel_three_eq : searchLevel 3 = queensLevel3 := by
  have h : searchLevel 3 = (searchLevel 2).flatMap extendBoards := rfl
  rw [h, searchLevel_two_eq]
  rfl

set_option maxRecDepth 16000 in
set_option maxHeartbeats 1000000 in
theorem searchLevel_four_eq : searchLevel 4 = queensLevel4 := by
  have h : searchLevel 4 = (searchLevel 3).flatMap extendBoards := rfl
  rw [h, searchLevel_three_eq]
  rfl

set_option maxRecDepth 16000 in
set_option maxHeartbeats 1000000 in
theorem searchLevel_five_eq : searchLevel 5 = queensLevel5 := by
  have h : searchLevel 5 = (searchLevel 4).flatMap extendBoards := rfl
  rw [h, searchLevel_four_eq]
  rfl

set_option maxRecDepth 16000 in
set_option maxHeartbeats 1000000 in
theorem searchLevel_six_eq : searchLevel 6 = queensLevel6 := by
  have h : searchLevel 6 = (searchLevel 5).flatMap extendBoards := rfl
  rw [h, searchLevel_five_eq]
  rfl

set_option maxRecDepth 16000 in
set_option maxHeartbeats 1000000 in
theorem searchLevel_seven_eq : searchLevel 7 = queensLevel7 := by
  have h : searchLevel 7 = (searchLevel 6).flatMap extendBoards := rfl
  rw [h, searchLevel_six_eq]
  rfl

set_option maxRecDepth 16000 in
set_option maxHeartbeats 1000000 in
theorem searchLevel_eight_eq : searchLevel 8 = queensLevel8 := by
  have h : searchLevel 8 = (searchLevel 7).flatMap extendBoards := rfl
  rw [h, searchLevel_seven_eq]
  rfl

set_option maxRecDepth 16000 in
set_option maxHeartbeats 1000000 in
theorem searchLevel_eight_length : (searchLevel BOARD_SIZE).length = 92 := by
  have h : BOARD_SIZE = 8 := rfl
  rw [h, searchLevel_eight_eq]
  rfl

theorem solsValid_card_le {s : Finset (List Nat)} (h : solsValid s) : s.card ≤ 92 := by
  have hsub : s ⊆ (searchLevel BOARD_SIZE).toFinset := by
    intro p hp
    obtain ⟨⟨hlen, h8⟩, h0⟩ := h p hp
    rw [List.mem_toFinset]
    have hm := mem_searchLevel p h8 h0
    rwa [hlen] at hm
  calc s.card ≤ (searchLevel BOARD_SIZE).toFinset.card := Finset.card_le_card hsub
    _ ≤ (searchLevel BOARD_SIZE).length := List.toFinset_card_le _
    _ = 92 := searchLevel_eight_length

theorem popValid_evaluate {pop : List Individual} (h : popValid pop) :
    popValid (evaluate pop) :=
  fun ind hm => h ind (List.mem_mergeSort.mp hm)

theorem popValid_selection {pop : List Individual} {hcount lcount : Nat}
    (hv : popValid pop) : popValid (selection pop hcount lcount) := by
  intro ind hm
  simp only [selection] at hm
  rcases List.mem_append.mp hm with h1 | h1
  · exact hv ind (List.take_subset _ _ h1)
  · exact hv ind (List.drop_subset _ _ h1)

theorem validInd_crossover {a b : Individual} (ha : validInd a) (hb : validInd b) :
    validInd (crossover a b).1 ∧ validInd (crossover a b).2 := by
  obtain ⟨⟨hal, ha8⟩, -⟩ := ha
  obtain ⟨⟨hbl, hb8⟩, -⟩ := hb
  simp only [crossover, validInd, validPos]
  refine ⟨⟨⟨?_, ?_⟩, trivial⟩, ⟨⟨?_, ?_⟩, trivial⟩⟩
  · simp [hal, hbl]
  · intro y hy
    rcases List.mem_append.mp hy with h1 | h1
    · exact hb8 y (List.drop_subset _ _ h1)
    · exact ha8 y (List.drop_subset _ _ h1)
  · simp [hal, hbl]
    decide
  · intro y hy
    rcases List.mem_append.mp hy with h1 | h1
    · exact hb8 y (List.take_subset _ _ h1)
    · exact ha8 y (List.take_subset _ _ h1)

theorem validInd_crossoverSelf {x : Individual} (hx : validInd x) :
    validInd (crossoverSelf x) := by
  obtain ⟨⟨hl, h8⟩, -⟩ := hx
  simp only [crossoverSelf, validInd, validPos]
  refine ⟨⟨?_, ?_⟩, trivial⟩
  · simp [hl]
    decide
  · intro y hy
    rcases List.mem_append.mp hy with h1 | h1
    · rcases List.mem_append.mp (List.take_subset _ _ h1) with h2 | h2
      · exact h8 y (List.drop_subset _ _ h2)
      · exact h8 y (List.drop_subset _ _ h2)
    · exact h8 y (List.take_subset _ _ h1)

theorem popValid_crossoverAt {pop : List Individual} {i j : Nat}
    (hv : popValid pop) (hi : i < pop.length) (hj : j < pop.length) :
    popValid (crossoverAt pop i j) := by
  have hmi : pop.getD i default ∈ pop := by
    rw [List.getD_eq_getElem _ _ hi]; exact List.getElem_mem _
  have hmj : pop.getD j default ∈ pop := by
    rw [List.getD_eq_getElem _ _ hj]; exact List.getElem_mem _
  by_cases hij : i = j
  · subst hij
    rw [crossoverAt_self pop hi]
    intro ind hm
    rcases List.mem_or_eq_of_mem_set hm with h1 | rfl
    · exact hv ind h1
    · exact validInd_crossoverSelf (hv _ hmi)
  · rw [crossoverAt_ne pop hij hi hj]
    intro ind hm
    rcases List.mem_or_eq_of_mem_set hm with h1 | rfl
    · rcases List.mem_or_eq_of_mem_set h1 with h2 | rfl
      · exact hv ind h2
      · exact (validInd_crossover (hv _ hmi) (hv _ hmj)).1
    · exact (validInd_crossover (hv _ hmi) (hv _ hmj)).2

theorem popValid_mutateAt {pop pop' : List Individual} {idx col val : Nat}
    (hv : popValid pop) (hval : val < BOARD_SIZE)
    (h : mutateAt pop idx col val = some pop') : popValid pop' := by
  rw [mutateAt] at h
  split at h
  · injection h with h'
    subst h'
    intro ind hm
    rcases List.mem_or_eq_of_mem_set hm with h1 | rfl
    · exact hv ind h1
    · rename_i hc
      have hmem : pop.getD idx default ∈ pop := by
        rw [List.getD_eq_getElem _ _ hc.1]; exact List.getElem_mem _
      obtain ⟨⟨hl, h8⟩, -⟩ := hv _ hmem
      refine ⟨⟨?_, ?_⟩, rfl⟩
      · simp only [mutate, List.length_set]
        exact hl
      · intro y hy
        simp only [mutate] at hy
        rcases List.mem_or_eq_of_mem_set hy with h2 | rfl
        · exact h8 y h2
        · exact hval
  · exact absurd h (by simp)

theorem popValid_repopulate {pop : List Individual} {size : Nat} {samples : Nat → List Nat}
    (hv : popValid pop) (hs : ∀ k, List.Perm (samples k) (List.range BOARD_SIZE)) :
    popValid (repopulate pop size samples) := by
  rw [repopulate]
  split
  · intro ind hm
    rcases List.mem_append.mp hm with h1 | h1
    · exact hv ind h1
    · obtain ⟨k, -, rfl⟩ := List.mem_map.mp h1
      refine ⟨⟨?_, ?_⟩, rfl⟩
      · simpa [mkIndividual] using ((hs k).length_eq.trans (List.length_range _))
      · intro y hy
        simp only [mkIndividual] at hy
        exact List.mem_range.mp ((hs k).mem_iff.mp hy)
  · exact hv

theorem popValid_generationTail {pop pop' : List Individual} {d : GenDraws}
    {size hcount lcount : Nat}
    (hv : popValid pop) (hval : d.mval < BOARD_SIZE)
    (hs : ∀ k, List.Perm (d.samples k) (List.range BOARD_SIZE))
    (h : generationTail pop d size hcount lcount = some pop') : popValid pop' := by
  rw [generationTail] at h
  obtain ⟨pop3, hc, h2⟩ := Option.bind_eq_some.mp h
  obtain ⟨pop4, hm, rfl⟩ := Option.map_eq_some'.mp h2
  rw [crossoverIdx] at hc
  split at hc
  · injection hc with hc'
    subst hc'
    rename_i hbounds
    exact popValid_repopulate
      (popValid_mutateAt
        (popValid_crossoverAt (popValid_selection hv) hbounds.1 hbounds.2) hval hm) hs
  · exact absurd hc (by simp)

theorem allStep_invariant {st s' : SolState} {d : GenDraws} {size hcount lcount : Nat}
    (hval : d.mval < BOARD_SIZE)
    (hs : ∀ k, List.Perm (d.samples k) (List.range BOARD_SIZE))
    (hpop : popValid st.population) (hsols : solsValid st.solutions)
    (h : allStep st d size hcount lcount = some s') :
    st.solutions ⊆ s'.solutions ∧ popValid s'.population ∧ solsValid s'.solutions := by
  simp only [allStep] at h
  obtain ⟨pop5, htail, rfl⟩ := Option.map_eq_some'.mp h
  refine ⟨Finset.subset_union_left,
    popValid_generationTail (popValid_evaluate hpop) hval hs htail, ?_⟩
  intro p hp
  rcases Finset.mem_union.mp hp with h1 | h1
  · exact hsols p h1
  · rw [List.mem_toFinset] at h1
    obtain ⟨ind, hind, rfl⟩ := List.mem_map.mp h1
    have hind2 := List.mem_filter.mp hind
    have hvI := popValid_evaluate hpop ind hind2.1
    refine ⟨hvI.1, ?_⟩
    have hz : ind.n_conflicts = 0 := by simpa using hind2.2
    rw [← hvI.2]
    exact hz

theorem allRun_valid (draws : Nat → GenDraws) (size hcount lcount : Nat) (st : SolState)
    (hd : ∀ k, (draws k).mval < BOARD_SIZE ∧
      ∀ m, List.Perm ((draws k).samples m) (List.range BOARD_SIZE))
    (hpop : popValid st.population) (hsols : solsValid st.solutions) :
    ∀ n s, allRun draws size hcount lcount st n = some s →
      popValid s.population ∧ solsValid s.solutions := by
  intro n
  induction n with
  | zero =>
    intro s h
    simp only [allRun] at h
    injection h with h'
    subst h'
    exact ⟨hpop, hsols⟩
  | succ n ih =>
    intro s h
    rw [allRun] at h
    split at h
    · exact absurd h (by simp)
    · rename_i sp heq
      have hp := ih sp heq
      split at h
      · exact (allStep_invariant (hd n).1 (hd n).2 hp.1 hp.2 h).2
      · injection h with h'
        subst h'
        exact hp

theorem allRun_mono (draws : Nat → GenDraws) (size hcount lcount : Nat) (st : SolState)
    (hd : ∀ k, (draws k).mval < BOARD_SIZE ∧
      ∀ m, List.Perm ((draws k).samples m) (List.range BOARD_SIZE))
    (hpop : popValid st.population) (hsols : solsValid st.solutions) :
    ∀ n m s s', n ≤ m →
      allRun draws size hcount lcount st n = some s →
      allRun draws size hcount lcount st m = some s' →
      s.solutions ⊆ s'.solutions := by
  intro n m
  induction m with
  | zero =>
    intro s s' hnm h h'
    have h0 : n = 0 := Nat.le_zero.mp hnm
    subst h0
    rw [h] at h'
    injection h' with h''
    subst h''
    exact Finset.Subset.refl _
  | succ m ih =>
    intro s s' hnm h h'
    rcases Nat.lt_or_ge n (m + 1) with hlt | hge
    · have hnm' : n ≤ m := Nat.lt_succ_iff.mp hlt
      rw [allRun] at h'
      split at h'
      · exact absurd h' (by simp)
      · rename_i sp heq
        have hsub := ih s sp hnm' h heq
        split at h'
        · have hp := allRun_valid draws size hcount lcount st hd hpop hsols m sp heq
          exact hsub.trans (allStep_invariant (hd m).1 (hd m).2 hp.1 hp.2 h').1
        · injection h' with h''
          subst h''
          exact hsub
    · have heq : n = m + 1 := Nat.le_antisymm hnm hge
      subst heq
      rw [h] at h'
      injection h' with h''
      subst h''
      exact Finset.Subset.refl _

/-- C7: across the generations of `all_solutions_algorithm`, the solution
set never loses a member (monotone along every successful run), never
holds more than 92 entries (every recorded layout is one of the at most
92 zero-conflict boards), and the `while` loop's guard stops it exactly
when the set holds 92 distinct entries. -/
theorem allRun_solution_set_invariant
    (draws : Nat → GenDraws) (size hcount lcount : Nat) (st : SolState)
    (hd : ∀ k, (draws k).mval < BOARD_SIZE ∧
      ∀ m, List.Perm ((draws k).samples m) (List.range BOARD_SIZE))
    (hpop : popValid st.population) (hsols : solsValid st.solutions) :
    (∀ n m s s', n ≤ m →
      allRun draws size hcount lcount st n = some s →
      allRun draws size hcount lcount st m = some s' →
      s.solutions ⊆ s'.solutions)
    ∧ (∀ n s, allRun draws size hcount lcount st n = some s →
        s.solutions.card ≤ 92)
    ∧ (∀ s : Finset (List Nat), loopGuard s = false ↔ s.card = 92) := by
  refine ⟨fun n m s s' hnm h h' =>
    allRun_mono draws size hcount lcount st hd hpop hsols n m s s' hnm h h',
    fun n s h =>
      solsValid_card_le (allRun_valid draws size hcount lcount st hd hpop hsols n s h).2,
    fun s => ?_⟩
  simp [loopGuard]

theorem allRun_solution_set_invariant_witness :
    (∀ k : Nat, ((fun _ : Nat => constDraws) k).mval < BOARD_SIZE ∧
      ∀ m, List.Perm (((fun _ : Nat => constDraws) k).samples m) (List.range BOARD_SIZE))
    ∧ popValid (SolState.mk ∅ []).population
    ∧ solsValid (SolState.mk ∅ []).solutions
    ∧ ((∀ n m s s', n ≤ m →
        allRun (fun _ => constDraws) 20 5 5 (SolState.mk ∅ []) n = some s →
        allRun (fun _ => constDraws) 20 5 5 (SolState.mk ∅ []) m = some s' →
        s.solutions ⊆ s'.solutions)
      ∧ (∀ n s, allRun (fun _ => constDraws) 20 5 5 (SolState.mk ∅ []) n = some s →
          s.solutions.card ≤ 92)
      ∧ (∀ s : Finset (List Nat), loopGuard s = false ↔ s.card = 92)) := by
  have hd : ∀ k : Nat, ((fun _ : Nat => constDraws) k).mval < BOARD_SIZE ∧
      ∀ m, List.Perm (((fun _ : Nat => constDraws) k).samples m) (List.range BOARD_SIZE) := by
    intro k
    constructor
    · show constDraws.mval < BOARD_SIZE
      decide
    · intro m
      exact List.Perm.refl _
  have hpop : popValid (SolState.mk ∅ []).population := by simp [popValid]
  have hsols : solsValid (SolState.mk ∅ []).solutions := by simp [solsValid]
  exact ⟨hd, hpop, hsols,
    allRun_solution_set_invariant (fun _ => constDraws) 20 5 5 (SolState.mk ∅ []) hd hpop hsols⟩

/-- C8: `evaluate` permutes the population, sorts it ascending by the
cached conflict count, and the sort is stable: members with any given
conflict count keep their original relative order. -/
theorem evaluate_sorts_stably (pop : List Individual) :
    List.Perm (evaluate pop) pop
    ∧ (evaluate pop).Pairwise (fun a b => a.n_conflicts ≤ b.n_conflicts)
    ∧ ∀ c : Nat, (evaluate pop).filter (fun x => x.n_conflicts == c) =
        pop.filter (fun x => x.n_conflicts == c) := by
  have htrans : ∀ a b c : Individual,
      (a.n_conflicts ≤ b.n_conflicts : Bool) → (b.n_conflicts ≤ c.n_conflicts : Bool) →
      (a.n_conflicts ≤ c.n_conflicts : Bool) := by
    intro a b c hab hbc
    simp only [decide_eq_true_eq] at hab hbc ⊢
    omega
  have htotal : ∀ a b : Individual,
      ((a.n_conflicts ≤ b.n_conflicts : Bool) || (b.n_conflicts ≤ a.n_conflicts : Bool)) := by
    intro a b
    simp only [Bool.or_eq_true, decide_eq_true_eq]
    omega
  refine ⟨List.mergeSort_perm pop _, ?_, ?_⟩
  · have hp := List.sorted_mergeSort htrans htotal pop
    exact hp.imp (fun hab => by simpa using hab)
  · intro c
    have hpw : (pop.filter (fun x => x.n_conflicts == c)).Pairwise
        (fun a b => (a.n_conflicts ≤ b.n_conflicts : Bool)) := by
      apply List.pairwise_of_forall_mem_list
      intro x hx y hy
      have hxc := List.of_mem_filter hx
      have hyc := List.of_mem_filter hy
      simp only [beq_iff_eq] at hxc hyc
      simp [hxc, hyc]
    have hsub : List.Sublist (pop.filter (fun x => x.n_conflicts == c)) (evaluate pop) :=
      List.sublist_mergeSort htrans htotal hpw (List.filter_sublist pop)
    have hsub2 : List.Sublist (pop.filter (fun x => x.n_conflicts == c))
        ((evaluate pop).filter (fun x => x.n_conflicts == c)) := by
      have := hsub.filter (fun x => x.n_conflicts == c)
      simpa using this
    have hperm : List.Perm ((evaluate pop).filter (fun x => x.n_conflicts == c))
        (pop.filter (fun x => x.n_conflicts == c)) :=
      (List.mergeSort_perm pop _).filter _
    exact (hsub2.eq_of_length hperm.length_eq.symm).symm

theorem invPerm_length (p : List Nat) : (invPerm p).length = p.length := by
  simp [invPerm]

theorem invPerm_getD {p : List Nat} {r : Nat} (hr : r < p.length) :
    (invPerm p).getD r 0 = p.indexOf r := by
  have h1 : r < (invPerm p).length := by rw [invPerm_length]; exact hr
  rw [List.getD_eq_getElem _ _ h1]
  simp [invPerm]

/-- C9: whenever a permutation board layout is conflict-free under
`fitness`, so is the board obtained by swapping the roles of rows and
columns (its inverse permutation). -/
theorem fitness_invPerm_eq_zero (n : Nat) (p : List Nat)
    (hperm : List.Perm p (List.range n)) (h0 : fitness p = 0) :
    fitness (invPerm p) = 0 := by
  have hlen : p.length = n := hperm.length_eq.trans (List.length_range n)
  rw [fitness_eq_zero_iff] at h0 ⊢
  intro r s hrs hslt
  rw [invPerm_length, hlen] at hslt
  have hrlt : r < n := Nat.lt_trans hrs hslt
  have hrmem : r ∈ p := hperm.mem_iff.mpr (List.mem_range.mpr hrlt)
  have hsmem : s ∈ p := hperm.mem_iff.mpr (List.mem_range.mpr hslt)
  have ha : p.indexOf r < p.length := List.indexOf_lt_length.mpr hrmem
  have hb : p.indexOf s < p.length := List.indexOf_lt_length.mpr hsmem
  have hab : p.indexOf r ≠ p.indexOf s := by
    intro heq
    exact (Nat.ne_of_lt hrs) ((List.indexOf_inj hrmem hsmem).mp heq)
  rw [invPerm_getD (by omega : r < p.length), invPerm_getD (by omega : s < p.length)]
  have hpa : p.getD (p.indexOf r) 0 = r := by
    rw [List.getD_eq_getElem _ _ ha]; exact List.getElem_indexOf ha
  have hpb : p.getD (p.indexOf s) 0 = s := by
    rw [List.getD_eq_getElem _ _ hb]; exact List.getElem_indexOf hb
  rcases Nat.lt_or_ge (p.indexOf r) (p.indexOf s) with hlt | hge
  · have h1 := h0 (p.indexOf r) (p.indexOf s) hlt hb
    rw [hpa, hpb] at h1
    simp only [has_conflict, Bool.or_eq_false_iff, beq_eq_false_iff_ne] at h1 ⊢
    refine ⟨⟨Nat.ne_of_lt hrs, hab⟩, fun heq => h1.2 ?_⟩
    have h3 := h1.1.1
    omega
  · have hlt' : p.indexOf s < p.indexOf r := by omega
    have h1 := h0 (p.indexOf s) (p.indexOf r) hlt' ha
    rw [hpa, hpb] at h1
    simp only [has_conflict, Bool.or_eq_false_iff, beq_eq_false_iff_ne] at h1 ⊢
    refine ⟨⟨Nat.ne_of_lt hrs, hab⟩, fun heq => h1.2 ?_⟩
    omega

theorem fitness_invPerm_eq_zero_witness :
    List.Perm [0, 4, 7, 5, 2, 6, 1, 3] (List.range 8)
    ∧ fitness [0, 4, 7, 5, 2, 6, 1, 3] = 0
    ∧ fitness (invPerm [0, 4, 7, 5, 2, 6, 1, 3]) = 0 :=
  ⟨by decide, by decide,
    fitness_invPerm_eq_zero 8 [0, 4, 7, 5, 2, 6, 1, 3] (by decide) (by decide)⟩

/-- C6: with `keep_best + keep_worst` within the population size,
`selection` keeps exactly the first `k` and last `m` members in order and
drops the middle; with `m = 0` on a rank-sorted population every retained
member's conflict count is at most every discarded member's. -/
theorem selection_truncates (pop : List Individual) (k m : Nat) (hkm : k + m ≤ pop.length) :
    selection pop k m = pop.take k ++ pop.drop (pop.length - m)
    ∧ (pop.Pairwise (fun a b => a.n_conflicts ≤ b.n_conflicts) → m = 0 →
        ∀ x ∈ selection pop k m, ∀ y ∈ pop.drop k, x.n_conflicts ≤ y.n_conflicts) := by
  have hs : pySliceIdx pop.length (k : Int) = k := by
    simp only [pySliceIdx]
    split <;> omega
  have he : pySliceIdx pop.length ((pop.length : Int) - (m : Int)) = pop.length - m := by
    simp only [pySliceIdx]
    split <;> omega
  have hmax : max k (pop.length - m) = pop.length - m := by omega
  refine ⟨by simp only [selection, hs, he, hmax], ?_⟩
  intro hsort hm x hx y hy
  subst hm
  have hsel : selection pop k 0 = pop.take k := by
    simp only [selection, hs, he, Nat.sub_zero]
    rw [Nat.max_eq_right (show k ≤ pop.length by omega), List.drop_length,
      List.append_nil]
  rw [hsel] at hx
  rw [← List.take_append_drop k pop] at hsort
  exact (List.pairwise_append.mp hsort).2.2 x hx y hy

theorem selection_truncates_witness :
    1 + 1 ≤ c6pop.length
    ∧ (selection c6pop 1 1 = c6pop.take 1 ++ c6pop.drop (c6pop.length - 1)
      ∧ (c6pop.Pairwise (fun a b => a.n_conflicts ≤ b.n_conflicts) → 1 = 0 →
          ∀ x ∈ selection c6pop 1 1, ∀ y ∈ c6pop.drop 1,
            x.n_conflicts ≤ y.n_conflicts)) :=
  ⟨by decide, selection_truncates c6pop 1 1 (by decide)⟩

/-- C4 counterexample: a selection request exceeding the population size
does not fail and does not resize; `del` of the empty slice silently
returns the population unchanged. -/
theorem selection_overfull_counterexample :
    c4pop.length < 5 + 5 ∧ selection c4pop 5 5 = c4pop := by decide

/-- C4 amended: requesting `keep_best + keep_worst` beyond the population
size (with `keep_worst` at most the size) is a silent no-op, not a
fail-fast error: the deleted slice is empty and the population comes back
unchanged. -/
theorem selection_overfull_noop (pop : List Individual) (hcount lcount : Nat)
    (h1 : pop.length < hcount + lcount) (h2 : lcount ≤ pop.length) :
    selection pop hcount lcount = pop := by
  have hs : pySliceIdx pop.length (hcount : Int) = min hcount pop.length := by
    simp only [pySliceIdx]
    split <;> omega
  have he : pySliceIdx pop.length ((pop.length : Int) - (lcount : Int)) = pop.length - lcount := by
    simp only [pySliceIdx]
    split <;> omega
  have hmax : max (min hcount pop.length) (pop.length - lcount) = min hcount pop.length := by
    omega
  simp only [selection, hs, he, hmax]
  exact List.take_append_drop _ _

theorem selection_overfull_noop_witness :
    c4pop.length < 2 + 1 ∧ 1 ≤ c4pop.length ∧ selection c4pop 2 1 = c4pop :=
  ⟨by decide, by decide, selection_overfull_noop c4pop 2 1 (by decide) (by decide)⟩

/-- C5 counterexample: a supplied 3-element positions list is accepted
verbatim; no invalid-input failure, no truncation or padding to length 8
occurs. -/
theorem mkIndividual_accepts_wrong_length :
    (mkIndividual (some [0, 1, 2]) (List.range BOARD_SIZE)).positions = [0, 1, 2]
    ∧ (mkIndividual (some [0, 1, 2]) (List.range BOARD_SIZE)).positions.length ≠ BOARD_SIZE := by
  decide

/-- C5 amended: any non-empty supplied positions sequence is stored
verbatim, whatever its length; the constructor performs no length
validation (and only replaces an empty or absent sequence by the random
sample). -/
theorem mkIndividual_supplied_verbatim (p sample : List Nat) (h : p ≠ []) :
    (mkIndividual (some p) sample).positions = p := by
  simp [mkIndividual, h]

theorem mkIndividual_supplied_verbatim_witness :
    ([0, 1, 2] : List Nat) ≠ []
    ∧ (mkIndividual (some [0, 1, 2]) (List.range BOARD_SIZE)).positions = [0, 1, 2] :=
  ⟨by decide, mkIndividual_supplied_verbatim [0, 1, 2] (List.range BOARD_SIZE) (by decide)⟩

/-- C10: constructing an `Individual` from an explicitly supplied empty
list behaves exactly like supplying none: Python truthiness sends both to
the random sample, a length-8 permutation, so the positions are never
empty. -/
theorem mkIndividual_empty_like_none (sample : List Nat)
    (h : List.Perm sample (List.range BOARD_SIZE)) :
    mkIndividual (some []) sample = mkIndividual none sample
    ∧ (mkIndividual (some []) sample).positions = sample
    ∧ (mkIndividual (some []) sample).positions.length = BOARD_SIZE
    ∧ (mkIndividual (some []) sample).positions ≠ [] := by
  refine ⟨rfl, rfl, ?_, ?_⟩
  · show sample.length = BOARD_SIZE
    exact h.length_eq.trans (List.length_range _)
  · show sample ≠ []
    intro heq
    have hl := h.length_eq.trans (List.length_range _)
    rw [heq] at hl
    simp [BOARD_SIZE] at hl

theorem mkIndividual_empty_like_none_witness :
    List.Perm (List.range BOARD_SIZE) (List.range BOARD_SIZE)
    ∧ (mkIndividual (some []) (List.range BOARD_SIZE) =
        mkIndividual none (List.range BOARD_SIZE)
      ∧ (mkIndividual (some []) (List.range BOARD_SIZE)).positions = List.range BOARD_SIZE
      ∧ (mkIndividual (some []) (List.range BOARD_SIZE)).positions.length = BOARD_SIZE
      ∧ (mkIndividual (some []) (List.range BOARD_SIZE)).positions ≠ []) :=
  ⟨List.Perm.refl _, mkIndividual_empty_like_none (List.range BOARD_SIZE) (List.Perm.refl _)⟩

/-- C1 counterexample: on the main diagonal the conflict count is not 7:
all 28 pairs share a diagonal, and the code counts them all. -/
theorem fitness_main_diagonal_not_seven :
    fitness [0, 1, 2, 3, 4, 5, 6, 7] ≠ 7 := by decide

/-- C1 amended: every one of the 28 pairs of queens on the main diagonal
shares a diagonal (the column distance always equals the row distance),
so the fitness of `[0,1,2,3,4,5,6,7]` is exactly 28. -/
theorem fitness_main_diagonal_eq_28 :
    fitness [0, 1, 2, 3, 4, 5, 6, 7] = 28 := by decide

/-- C2: the mutation phase of a generation —
`mutate(population[random.randint(0, 7)])`, modelled by `mutateAt` inside
`generationTail` — touches at most the single drawn index: every other
member passes through the phase unchanged, contradicting the drivers'
docstring claim that every member is mutated. -/
theorem mutateAt_changes_at_most_one (pop pop' : List Individual) (idx col val : Nat)
    (h : mutateAt pop idx col val = some pop') :
    pop'.length = pop.length
    ∧ ∀ k, k ≠ idx → pop'.getD k default = pop.getD k default := by
  rw [mutateAt] at h
  split at h
  · injection h with h'
    subst h'
    refine ⟨List.length_set _ _ _, ?_⟩
    intro k hk
    simp [List.getD_eq_getElem?_getD, List.getElem?_set_ne (Ne.symm hk)]
  · exact absurd h (by simp)

theorem mutateAt_changes_at_most_one_witness :
    mutateAt c4pop 0 0 5 = some c2popAfter
    ∧ (c2popAfter.length = c4pop.length
      ∧ ∀ k, k ≠ 0 → c2popAfter.getD k default = c4pop.getD k default) :=
  ⟨by decide, mutateAt_changes_at_most_one c4pop c2popAfter 0 0 5 (by decide)⟩

theorem list_length_eight_eq (l : List Nat) (h : l.length = 8) :
    ∃ x0 x1 x2 x3 x4 x5 x6 x7, l = [x0, x1, x2, x3, x4, x5, x6, x7] := by
  rcases l with _ | ⟨x0, l⟩
  · simp at h
  rcases l with _ | ⟨x1, l⟩
  · simp at h
  rcases l with _ | ⟨x2, l⟩
  · simp at h
  rcases l with _ | ⟨x3, l⟩
  · simp at h
  rcases l with _ | ⟨x4, l⟩
  · simp at h
  rcases l with _ | ⟨x5, l⟩
  · simp at h
  rcases l with _ | ⟨x6, l⟩
  · simp at h
  rcases l with _ | ⟨x7, l⟩
  · simp at h
  rcases l with _ | ⟨x8, l⟩
  · exact ⟨x0, x1, x2, x3, x4, x5, x6, x7, rfl⟩
  · simp only [List.length_cons] at h
    omega

/-- C3: on two distinct 8-position candidates, `crossover` replaces the
first half of `ind1` with the last half of `ind2`, replaces the last half
of `ind2` with `ind1`'s original first half, leaves every other position
of both unchanged, and leaves both conflict caches equal to the fitness
of the new positions. -/
theorem crossover_spec (a b : Individual)
    (ha : a.positions.length = BOARD_SIZE) (hb : b.positions.length = BOARD_SIZE) :
    (crossover a b).1.positions = b.positions.drop 4 ++ a.positions.drop 4
    ∧ (crossover a b).2.positions = b.positions.take 4 ++ a.positions.take 4
    ∧ (∀ i, i < 4 → (crossover a b).1.positions.getD i 0 = b.positions.getD (4 + i) 0)
    ∧ (∀ i, 4 ≤ i → i < 8 → (crossover a b).1.positions.getD i 0 = a.positions.getD i 0)
    ∧ (∀ i, 4 ≤ i → i < 8 → (crossover a b).2.positions.getD i 0 = a.positions.getD (i - 4) 0)
    ∧ (∀ i, i < 4 → (crossover a b).2.positions.getD i 0 = b.positions.getD i 0)
    ∧ (crossover a b).1.n_conflicts = fitness (crossover a b).1.positions
    ∧ (crossover a b).2.n_conflicts = fitness (crossover a b).2.positions := by
  obtain ⟨a0, a1, a2, a3, a4, a5, a6, a7, hA⟩ := list_length_eight_eq a.positions ha
  obtain ⟨b0, b1, b2, b3, b4, b5, b6, b7, hB⟩ := list_length_eight_eq b.positions hb
  refine ⟨?_, ?_, ?_, ?_, ?_, ?_, rfl, rfl⟩
  · simp [crossover, hA, hB, BOARD_SIZE]
  · simp [crossover, hA, hB, BOARD_SIZE]
  · intro i hi
    interval_cases i <;> simp [crossover, hA, hB, BOARD_SIZE]
  · intro i hi1 hi2
    interval_cases i <;> simp [crossover, hA, hB, BOARD_SIZE]
  · intro i hi1 hi2
    interval_cases i <;> simp [crossover, hA, hB, BOARD_SIZE]
  · intro i hi
    interval_cases i <;> simp [crossover, hA, hB, BOARD_SIZE]

theorem crossover_spec_witness :
    ((mkIndividual (some [0, 4, 7, 5, 2, 6, 1, 3]) []).positions.length = BOARD_SIZE)
    ∧ ((mkIndividual (some [3, 1, 4, 1, 5, 0, 2, 6]) []).positions.length = BOARD_SIZE)
    ∧ ((crossover (mkIndividual (some [0, 4, 7, 5, 2, 6, 1, 3]) [])
          (mkIndividual (some [3, 1, 4, 1, 5, 0, 2, 6]) [])).1.positions =
        (mkIndividual (some [3, 1, 4, 1, 5, 0, 2, 6]) []).positions.drop 4 ++
          (mkIndividual (some [0, 4, 7, 5, 2, 6, 1, 3]) []).positions.drop 4) :=
  ⟨by decide, by decide,
    (crossover_spec (mkIndividual (some [0, 4, 7, 5, 2, 6, 1, 3]) [])
      (mkIndividual (some [3, 1, 4, 1, 5, 0, 2, 6]) []) (by decide) (by decide)).1⟩
